import Mathlib

/-!
Verification development for the agent-wallet permission reconciliation
engine.  The TypeScript sources (`src/cli.ts`, `src/porto/service.ts` and
the unnamed service module) are shallowly embedded below: pure functions
become Lean functions, JavaScript `throw` becomes `Except`, mutation of
the local config becomes explicit state passing, `bigint` becomes `Int`,
and JavaScript strings become Lean `String`s (all relevant comparisons are
ASCII).  The 4-byte selector computation `toFunctionSelector` comes from
the external `viem` library (keccak-256), so it is threaded through as an
explicit function argument `sel : String → Option String`, where `none`
models the function throwing on an unparsable signature.
-/

namespace AgentWallet

/-- Lowercase a string character by character (model of
JavaScript `String.prototype.toLowerCase` on ASCII data). -/
def lower (s : String) : String := ⟨s.data.map Char.toLower⟩

/-- Prefix test on strings (model of `String.prototype.startsWith` /
`String.startsWith`), computed on the character lists. -/
def strStartsWith (s p : String) : Bool :=
  s.data.take p.data.length == p.data

/-- Lexicographic comparison by character code (the order JavaScript's
default `Array.prototype.sort` uses on strings). -/
def charListLe : List Char → List Char → Bool
  | [], _ => true
  | _ :: _, [] => false
  | a :: as, b :: bs =>
    if a.toNat < b.toNat then true
    else if b.toNat < a.toNat then false
    else charListLe as bs

/-- String comparison used when sorting normalized scope entries. -/
def strLe (a b : String) : Bool := charListLe a.data b.data

/-- Insert `x` after every element `y` with `le y x` (the insertion step
of a stable sort). -/
def orderedInsert (le : α → α → Bool) (x : α) : List α → List α
  | [] => [x]
  | y :: ys => if le y x then y :: orderedInsert le x ys else x :: y :: ys

/-- Stable sort by `le` (model of JavaScript `Array.prototype.sort`,
which is specified to be stable; on a total comparator a stable sort is
unique, so insertion sort gives the same list as the engine's sort). -/
def stableSort (le : α → α → Bool) (l : List α) : List α :=
  l.foldl (fun acc x => orderedInsert le x acc) []

/-- Whitespace trim on both ends (model of `String.prototype.trim`). -/
def strTrim (s : String) : String :=
  ⟨((s.data.dropWhile Char.isWhitespace).reverse.dropWhile Char.isWhitespace).reverse⟩

/-- Constant `PORTO_ANY_SELECTOR` from `src/cli.ts`. -/
def PORTO_ANY_SELECTOR : String := "0x32323232"

/-- Constant `PORTO_ANY_TARGET` from `src/cli.ts`. -/
def PORTO_ANY_TARGET : String := "0x3232323232323232323232323232323232323232"

/-- Constant `NATIVE_TOKEN_ADDRESS` from the porto service modules. -/
def NATIVE_TOKEN_ADDRESS : String := "0x0000000000000000000000000000000000000000"

/-- Constant `DEFAULT_PERMISSION_DAILY_USD` from `src/cli.ts`. -/
def DEFAULT_PERMISSION_DAILY_USD : Int := 100

/-- Type `GrantCallPermission` from `src/cli.ts`: one call-scope entry,
with optional target address and optional selector / textual signature. -/
structure GrantCallPermission where
  toAddr : Option String := none
  signature : Option String := none
deriving DecidableEq, Repr

/-- Model of a JavaScript application error (`AppError` in `src/cli.ts`),
keeping the machine-readable code, the message and the optional hint. -/
structure AppError where
  code : String
  message : String
  hint : Option String := none
deriving DecidableEq, Repr

/-- Function `isBroadSelfCallEntry` from `src/cli.ts`.  The JavaScript
falsiness checks `if (!target)` / `if (!signature)` treat both `undefined`
and the empty string as absent, which the embedding mirrors. -/
def isBroadSelfCallEntry (entry : GrantCallPermission) (account : String) : Bool :=
  match entry.toAddr.map lower with
  | none => false
  | some target =>
    if target.isEmpty then false
    else if target ≠ lower account then false
    else
      match entry.signature.map lower with
      | none => true
      | some signature =>
        if signature.isEmpty then true
        else signature = PORTO_ANY_SELECTOR

/-- Function `allowlistHasBroadSelfCall` from `src/cli.ts`. -/
def allowlistHasBroadSelfCall (allowlist : List GrantCallPermission)
    (account : String) : Bool :=
  allowlist.any (fun entry => isBroadSelfCallEntry entry account)

/-- Function `assertSecureAllowlist` from `src/cli.ts`; throwing the
`INSECURE_SELF_ALLOWLIST` `AppError` is modelled with `Except.error`. -/
def assertSecureAllowlist (allowlist : List GrantCallPermission)
    (account : String) : Except AppError Unit :=
  if !allowlistHasBroadSelfCall allowlist account then .ok ()
  else .error
    { code := "INSECURE_SELF_ALLOWLIST"
      message := "Allowlist includes insecure broad self-call scope (`to` set to account without a specific selector)."
      hint := some "Remove broad self-call entries. Keep only explicit external targets and specific function signatures." }

/-- ASCII hex-digit test, the character class of the regex in
`isHexSelector` (`src/cli.ts`). -/
def isHexDigitChar (c : Char) : Bool :=
  c.isDigit || ('a' ≤ c && c ≤ 'f') || ('A' ≤ c && c ≤ 'F')

/-- Function `isHexSelector` from `src/cli.ts`: the value is present,
non-empty, and matches the regex for 0x followed by eight hex digits. -/
def isHexSelector : Option String → Bool
  | none => false
  | some v =>
    !v.isEmpty && v.length = 10 && strStartsWith v "0x" &&
      ((v.drop 2).toList.all isHexDigitChar)

/-- One spend-scope entry (`permissions.spend` element of an observed
permission record); `limit` is the `bigint` limit. -/
structure SpendEntry where
  limit : Int
  period : String
  token : Option String := none
deriving DecidableEq, Repr

/-- The `permissions` payload of an observed permission record:
call-scope entries and spend-scope entries. -/
structure PermissionSet where
  calls : List GrantCallPermission := []
  spend : List SpendEntry := []
deriving DecidableEq, Repr

/-- An observed permission record as consumed by `src/cli.ts`
(`PermissionSnapshot`). -/
structure PermissionSnapshot where
  id : String
  expiry : Int
  permissions : PermissionSet
deriving DecidableEq, Repr

/-- Function `includesDailySpendLimit` from `src/cli.ts`: some spend
entry has period `day` and limit exactly the default daily cap in
micro-dollars.  Note that the entry's token is never examined. -/
def includesDailySpendLimit (permissions : PermissionSet) : Bool :=
  let required : Int := DEFAULT_PERMISSION_DAILY_USD * 1000000
  permissions.spend.any (fun entry => entry.period = "day" && entry.limit = required)

/-- Function `isActivePermission` from `src/cli.ts`. -/
def isActivePermission (permission : PermissionSnapshot) (nowSeconds : Int) : Bool :=
  nowSeconds < permission.expiry

/-- The `normalize` closure inside `permissionMatchesRequestedAllowlist`
(`src/cli.ts`): canonicalize one call-scope entry to a `to|signature`
string, mapping absent/sentinel values to `*`, reducing textual
signatures to selectors via `sel` and falling back to the lowercased raw
string when `sel` fails (the `catch` branch). -/
def normalizeCallEntry (sel : String → Option String)
    (entry : GrantCallPermission) : String :=
  let toPart :=
    match entry.toAddr.map lower with
    | none => "*"
    | some t => if t.isEmpty || t = PORTO_ANY_TARGET then "*" else t
  let sigPart :=
    match entry.signature.map lower with
    | none => "*"
    | some s =>
      if s.isEmpty then "*"
      else if s = PORTO_ANY_SELECTOR then "*"
      else if isHexSelector (some s) then s
      else
        match sel s with
        | some reduced => lower reduced
        | none => s
  toPart ++ "|" ++ sigPart

/-- Function `permissionMatchesRequestedAllowlist` from `src/cli.ts`:
requires the observed and requested call lists to have the same length,
then compares the sorted normalized string lists position by position. -/
def permissionMatchesRequestedAllowlist (sel : String → Option String)
    (permission : PermissionSet)
    (requestedAllowlist : List GrantCallPermission) : Bool :=
  let calls := permission.calls
  if requestedAllowlist.length ≠ calls.length then false
  else
    let actual := stableSort strLe (calls.map (normalizeCallEntry sel))
    let expected :=
      stableSort strLe (requestedAllowlist.map (normalizeCallEntry sel))
    (expected.zip actual).all (fun p => p.2 = p.1)

/-- Function `permissionMatchesDefaultEnvelope` from `src/cli.ts`. -/
def permissionMatchesDefaultEnvelope (sel : String → Option String)
    (permission : PermissionSet)
    (requestedAllowlist : List GrantCallPermission) : Bool :=
  permissionMatchesRequestedAllowlist sel permission requestedAllowlist &&
    includesDailySpendLimit permission

/-- A desired call entry of `PermissionPolicy.calls` in the unnamed porto
service module (`part_006`): the target is mandatory there. -/
structure PolicyCallEntry where
  toAddr : String
  signature : Option String := none
deriving DecidableEq, Repr

/-- The `callsMatch` closure of `findMatchingPermission` in the unnamed
porto service module: every desired entry must be present in the observed
calls (a subset check, tolerant of extra observed entries). -/
def callsMatch (desiredCalls : List PolicyCallEntry)
    (calls : List GrantCallPermission) : Bool :=
  desiredCalls.all fun desired =>
    calls.any fun c =>
      (match c.toAddr with
       | none => false
       | some ct => lower ct = lower desired.toAddr)
      &&
      (match desired.signature with
       | none => true
       | some ds =>
         match c.signature with
         | none => false
         | some cs => lower cs = lower ds)

/-- The `isNativeToken` closure of `findMatchingPermission`: a null or
absent token, or the zero address, counts as the native asset. -/
def isNativeToken : Option String → Bool
  | none => true
  | some token => token = NATIVE_TOKEN_ADDRESS

/-- The `spendMatch` closure of `findMatchingPermission` in the unnamed
porto service module: some observed spend entry has the desired period,
exactly the desired limit, and a token agreeing with the desired token
(native when the desired token is absent). -/
def spendMatch (desiredSpendPeriod : String) (desiredSpendLimit : Int)
    (desiredSpendToken : Option String) (spend : List SpendEntry) : Bool :=
  spend.any fun s =>
    if s.period ≠ desiredSpendPeriod || s.limit ≠ desiredSpendLimit then false
    else
      match desiredSpendToken with
      | none => isNativeToken s.token
      | some t =>
        match s.token with
        | none => false
        | some st => lower st = lower t

/-- Untyped JSON-like value, the shape of relay RPC responses consumed by
`src/porto/service.ts` (duck-typed data validated by `isRelayKeyRecord`). -/
inductive JVal where
  | jnull
  | jbool (b : Bool)
  | jnum (n : Int)
  | jstr (s : String)
  | jarr (elems : List JVal)
  | jobj (fields : List (String × JVal))
deriving Repr

/-- Property lookup `value.name` on a JSON-like value: defined on objects,
`none` (JavaScript `undefined`) everywhere else. -/
def getField : JVal → String → Option JVal
  | .jobj fields, name => (fields.find? (fun f => f.1 = name)).map (·.2)
  | _, _ => none

/-- Function `isObject` from `src/porto/service.ts` (`typeof value ===
'object' && value !== null`; arrays are objects in JavaScript). -/
def isObject : JVal → Bool
  | .jobj _ => true
  | .jarr _ => true
  | _ => false

/-- Function `isRelayKeyRecord` from `src/porto/service.ts`: the
structural guard every relay key entry must pass before it is consumed. -/
def isRelayKeyRecord (value : JVal) : Bool :=
  if !isObject value then false
  else if !(match getField value "expiry" with
            | some (.jnum _) => true
            | _ => false) then false
  else if !(match getField value "hash" with
            | none => true
            | some (.jstr s) => strStartsWith s "0x"
            | some _ => false) then false
  else if !(match getField value "publicKey" with
            | some (.jstr s) => strStartsWith s "0x"
            | _ => false) then false
  else if !(match getField value "role" with
            | some (.jstr s) => s = "admin" || s = "normal"
            | _ => false) then false
  else if !(match getField value "type" with
            | some (.jstr s) => s = "p256" || s = "secp256k1" || s = "webauthnp256"
            | _ => false) then false
  else
    match getField value "permissions" with
    | some (.jarr _) => true
    | _ => false

/-- String-valued property read used by the snapshot construction. -/
def jStrField (v : JVal) (name : String) : Option String :=
  match getField v name with
  | some (.jstr s) => some s
  | _ => none

/-- The `role` property of a relay key record. -/
def roleOf (v : JVal) : String := (jStrField v "role").getD ""

/-- The `type` property of a relay key record. -/
def keyTypeOf (v : JVal) : String := (jStrField v "type").getD ""

/-- The `publicKey` property of a relay key record. -/
def publicKeyOf (v : JVal) : String := (jStrField v "publicKey").getD ""

/-- The `expiry` property of a relay key record. -/
def expiryOf (v : JVal) : Int :=
  match getField v "expiry" with
  | some (.jnum n) => n
  | _ => 0

/-- The optional `hash` property of a relay key record. -/
def hashOf (v : JVal) : Option String := jStrField v "hash"

/-- The `permissions` array of a relay key record. -/
def permissionsOf (v : JVal) : List JVal :=
  match getField v "permissions" with
  | some (.jarr l) => l
  | _ => []

/-- Function `normalizeRelayKeyType` from `src/porto/service.ts`. -/
def normalizeRelayKeyType (type : String) : String :=
  if type = "webauthnp256" then "webauthn-p256" else type

/-- Relay permission entry of `type: 'call'` mapped to a call-scope entry
(`{ signature: permission.selector, to: permission.to }`). -/
def relayCallEntry (p : JVal) : GrantCallPermission :=
  { toAddr := jStrField p "to", signature := jStrField p "selector" }

/-- Relay permission entry of `type: 'spend'` mapped to a spend entry. -/
def relaySpendEntry (p : JVal) : SpendEntry :=
  { limit := match getField p "limit" with
             | some (.jnum n) => n
             | _ => 0
    period := (jStrField p "period").getD ""
    token := jStrField p "token" }

/-- Discriminator for `permission.type === 'call'`. -/
def isCallPermission (p : JVal) : Bool := jStrField p "type" = some "call"

/-- Discriminator for `permission.type === 'spend'`. -/
def isSpendPermission (p : JVal) : Bool := jStrField p "type" = some "spend"

/-- The snapshot a validated relay key record is mapped to by
`listAgentPermissions` in `src/porto/service.ts` (`id: hash ??
publicKey`; the unused `key` payload is not carried further). -/
def relaySnapshot (candidate : JVal) : PermissionSnapshot :=
  { id := (hashOf candidate).getD (publicKeyOf candidate)
    expiry := expiryOf candidate
    permissions :=
      { calls := ((permissionsOf candidate).filter isCallPermission).map relayCallEntry
        spend := ((permissionsOf candidate).filter isSpendPermission).map relaySpendEntry } }

/-- The agent's own signing key as returned by `signer.getPortoKey()`. -/
structure AgentKey where
  publicKey : String
  type : String
deriving DecidableEq, Repr

/-- The `Object.values(relayKeys).flatMap(v => Array.isArray(v) ? v : [])`
flattening step of `listAgentPermissions`. -/
def flattenRelayValues (values : List JVal) : List JVal :=
  values.flatMap (fun v => match v with | .jarr xs => xs | _ => [])

/-- Function `listAgentPermissions` from `src/porto/service.ts` (its
post-RPC processing: the address/chain resolution and the
`wallet_getKeys` call itself are external I/O): flatten the relay
response, keep only well-formed key records, then filter by role
`normal`, matching key type, matching public key and (unless
`includeExpired`) unexpired, and map each survivor to a snapshot. -/
def listAgentPermissions (relayValues : List JVal) (agentKey : AgentKey)
    (nowSeconds : Int) (includeExpired : Bool) : List PermissionSnapshot :=
  let flattened := (flattenRelayValues relayValues).filter isRelayKeyRecord
  (((((flattened.filter (fun c => roleOf c = "normal")).filter
      (fun c => normalizeRelayKeyType (keyTypeOf c) = agentKey.type)).filter
      (fun c => lower (publicKeyOf c) = lower agentKey.publicKey)).filter
      (fun c => if includeExpired then true else nowSeconds < expiryOf c)).map
      relaySnapshot)

/-- The locally persisted pending permission record
(`pendingPermission` in the agent-wallet config). -/
structure PendingPermissionState where
  id : String
  chainId : Nat
  createdAt : String
  expiry : Int
  calls : List GrantCallPermission
deriving DecidableEq, Repr

/-- The `porto` section of the local agent-wallet config (the fields the
reconciliation flow reads or writes). -/
structure PortoState where
  address : Option String := none
  chainId : Option Nat := none
  permissionIds : List String := []
  pendingPermission : Option PendingPermissionState := none
deriving DecidableEq, Repr

/-- The local agent-wallet config; `saveConfig` persists it, modelled by
explicit state passing. -/
structure AgentWalletConfig where
  porto : Option PortoState := none
deriving DecidableEq, Repr

/-- Function `currentPendingPermission` from `src/cli.ts`: the pending
record, but only when its chain matches the requested chain (a numeric
`chainId` argument corresponds to `some`). -/
def currentPendingPermission (config : AgentWalletConfig)
    (chainId : Option Nat) : Option PendingPermissionState :=
  match config.porto.bind (fun p => p.pendingPermission) with
  | none => none
  | some pending =>
    match chainId with
    | some c => if pending.chainId ≠ c then none else some pending
    | none => some pending

/-- Function `ensurePermissionIdList` from `src/cli.ts`: add the id to
the deduplicated permission-id set of the config. -/
def ensurePermissionIdList (config : AgentWalletConfig)
    (permissionId : String) : AgentWalletConfig :=
  let ids := ((config.porto.map (fun p => p.permissionIds)).getD []).eraseDups
  let ids := if ids.contains permissionId then ids else ids ++ [permissionId]
  let p := config.porto.getD {}
  { config with porto := some { p with permissionIds := ids } }

/-- Assignment `config.porto = { ...config.porto, pendingPermission }`
performed by the grant-persisting code paths in `src/cli.ts`. -/
def setPendingPermission (config : AgentWalletConfig)
    (pending : PendingPermissionState) : AgentWalletConfig :=
  let p := config.porto.getD {}
  { config with porto := some { p with pendingPermission := some pending } }

/-- The guarded `delete config.porto.pendingPermission` of `src/cli.ts`
(a no-op when no `porto` section exists). -/
def deletePendingPermission (config : AgentWalletConfig) : AgentWalletConfig :=
  match config.porto with
  | none => config
  | some p => { config with porto := some { p with pendingPermission := none } }

/-- The entry normalization applied when persisting a pending record
(`{ ...(entry.to ? { to } : {}), ...(entry.signature ? { signature } :
{}) }`): JavaScript truthiness drops empty strings. -/
def stripCallEntry (entry : GrantCallPermission) : GrantCallPermission :=
  { toAddr := match entry.toAddr with
              | some t => if t.isEmpty then none else some t
              | none => none
    signature := match entry.signature with
                 | some s => if s.isEmpty then none else some s
                 | none => none }

/-- JavaScript truthiness of an optional string (`Boolean(x)`): absent
and empty are falsy. -/
def truthyStr : Option String → Bool
  | none => false
  | some s => !s.isEmpty

/-- The `.sort((left, right) => right.expiry - left.expiry)` step of
`waitForActivePermission`: stable sort by descending expiry. -/
def sortByExpiryDesc (l : List PermissionSnapshot) : List PermissionSnapshot :=
  stableSort (fun left right => right.expiry ≤ left.expiry) l

/-- Number of extra poll iterations the configure flow's 12s discovery
timeout admits at the 1s poll interval
(`CONFIGURE_STATE_DISCOVERY_TIMEOUT_MS / PERMISSION_DISCOVERY_INTERVAL_MS`
in `src/cli.ts`); the wall-clock deadline race is modelled by this fuel. -/
def CONFIGURE_DISCOVERY_POLLS : Nat := 12

/-- Function `waitForActivePermission` from `src/cli.ts`: repeatedly
query the platform (the k-th call returns `queries k`, at time
`nowAt k`), keep the unexpired records sorted by descending expiry, and
return the first record found, or `none` once the deadline (the fuel)
elapses.  The second component is the next unused query index. -/
def waitForActivePermission (queries : Nat → List PermissionSnapshot)
    (nowAt : Nat → Int) : Nat → Nat → Option PermissionSnapshot × Nat
  | fuel, k =>
    let active := sortByExpiryDesc
      ((queries k).filter (fun p => isActivePermission p (nowAt k)))
    match active.head? with
    | some permission => (some permission, k + 1)
    | none =>
      match fuel with
      | 0 => (none, k + 1)
      | f + 1 => waitForActivePermission queries nowAt f (k + 1)

/-- Result of `porto.onboard` (its `grantedPermission` summary). -/
structure OnboardGranted where
  id : String
  expiry : Int
deriving DecidableEq, Repr

/-- Result of `porto.onboard` as consumed by the configure flow. -/
structure OnboardResult where
  address : String
  chainId : Nat
  grantedPermission : Option OnboardGranted := none
deriving DecidableEq, Repr

/-- Result of `porto.grant` as consumed by the configure flow. -/
structure GrantResult where
  permissionId : String
  expiry : Int
deriving DecidableEq, Repr

/-- Environment of one configure invocation: the responses of the
external collaborators (signer, porto service, clock).  The remote
platform is modelled as answering its k-th permission query with
`queries k`; oracle calls are modelled as succeeding (transport failures
only truncate traces and are outside the claims below). -/
structure ConfigureEnv where
  signerCreated : Bool
  signerKeyId : String
  onboardResult : OnboardResult
  grantResult : GrantResult
  queries : Nat → List PermissionSnapshot
  nowAt : Nat → Int
  nowIso : String
  isoOfEpoch : Int → String
  sel : String → Option String

/-- The configure command options relevant to the reconciliation flow;
`calls` holds the already-parsed allowlist of `--calls`. -/
structure ConfigureOptions where
  calls : Option (List GrantCallPermission) := none
  createAccount : Bool := false
deriving DecidableEq, Repr

/-- Externally visible actions of one flow run, in order: onboarding
(with the allowlist when grant options were attached), a successful
security validation, and a `porto.grant` request. -/
inductive FlowEvent where
  | onboardCalled (grantCalls : Option (List GrantCallPermission))
  | assertSecurePassed (calls : List GrantCallPermission)
  | grantCalled (calls : List GrantCallPermission)
deriving DecidableEq, Repr

/-- Checkpoint status values (`ConfigureCheckpointStatus`). -/
inductive CheckpointStatus where
  | already_ok
  | created
  | updated
  | skipped
  | failed
deriving DecidableEq, Repr

/-- One emitted checkpoint (`ConfigureCheckpoint`); details are modelled
as rendered key/value pairs. -/
structure Checkpoint where
  checkpoint : String
  status : CheckpointStatus
  details : List (String × String) := []
deriving DecidableEq, Repr

/-- One step's successful result (`ConfigureStepResult`). -/
structure StepResult where
  status : CheckpointStatus
  details : List (String × String) := []
deriving DecidableEq, Repr

/-- The mutable local variables of `runConfigureFlow`, together with the
config being persisted, the next unused query index and the event
trace. -/
structure FlowSt where
  config : AgentWalletConfig
  address : Option String := none
  chainId : Option Nat := none
  requiresGrant : Bool := false
  grantedPermissionId : Option String := none
  activePermission : Option PermissionSnapshot := none
  pendingPermission : Option PendingPermissionState := none
  activationState : String := "pending_activation"
  permissionUpdated : Bool := false
  queryIdx : Nat := 0
  events : List FlowEvent := []
deriving DecidableEq, Repr

/-- Function `readErrorHint` from `src/cli.ts`. -/
def readErrorHint (hint : Option String) : Option String :=
  match hint with
  | none => none
  | some h => if (strTrim h).length > 0 then some h else none

/-- Function `nextActionForConfigureError` from `src/cli.ts`. -/
def nextActionForConfigureError (checkpoint : String) (error : AppError) :
    String :=
  match readErrorHint error.hint with
  | some h => h
  | none =>
    if error.code = "CONFIGURE_HUMAN_ONLY" then
      "Re-run `agent-wallet configure` without --json."
    else if error.code = "NON_INTERACTIVE_REQUIRES_FLAGS" then
      "Re-run with --headless (or run from an interactive terminal)."
    else if error.code = "MISSING_CALL_ALLOWLIST" then
      "Re-run with --calls '[\x7b\"to\":\"0x...\"\x7d]' to define the default allowlist."
    else if error.code = "PORTO_LOCAL_RELAY_BIND_FAILED" then
      "Allow local loopback binding for Porto CLI relay, then re-run configure."
    else if error.code = "PERMISSION_NOT_FINALIZED" then
      "Re-run configure with --calls to prepare permissions again, then run an allowlisted sign call."
    else if error.code = "MISSING_ACCOUNT_ADDRESS" then
      "Re-run configure and complete the account step in the dialog."
    else if error.code = "MISSING_CHAIN_ID" then
      "Re-run configure with explicit network selection (for example: --testnet)."
    else if error.code = "INVALID_CALLS_JSON" then
      "Fix the --calls JSON payload and re-run configure."
    else if error.code = "PORTO_SEND_PREPARE_FAILED" then
      "Re-run configure. If this repeats, enable debug logs and inspect send output."
    else if error.code = "INSECURE_SELF_ALLOWLIST" then
      "Remove broad self-call entries and re-run configure with a strict external allowlist."
    else if error.code = "INSECURE_ACTIVE_PERMISSION" then
      "Re-run configure with --calls to prepare a safe permission envelope without broad self-call scope."
    else if checkpoint = "permission_state" then
      "Resolve account/permission state issues above, then re-run configure."
    else if checkpoint = "permission_preparation" || checkpoint = "permission_classification" then
      "Retry configure and complete the permission grant/approval dialog if prompted."
    else if checkpoint = "outcome" then
      "Re-run configure, then use `agent-wallet sign` to activate pending permissions onchain if needed."
    else
      "Fix the issue above, then re-run `agent-wallet configure`."

/-- Step 1 (`agent_key`): ensure the signer key exists; `created` when
the signer reports it was created, `already_ok` otherwise. -/
def agentKeyStep (env : ConfigureEnv) (st : FlowSt) :
    Except AppError StepResult × FlowSt :=
  (.ok { status := if env.signerCreated then .created else .already_ok
         details := [("keyId", env.signerKeyId)] }, st)

/-- Step 2 (`account`): onboard when `--create-account` was passed or no
account is configured.  Onboarding sends the requested allowlist as grant
options; only after it returns (and only when a permission was actually
granted) is `assertSecureAllowlist` run, before the granted permission is
persisted as the pending record. -/
def accountStep (env : ConfigureEnv) (options : ConfigureOptions)
    (st : FlowSt) : Except AppError StepResult × FlowSt :=
  let hadConfiguredAccount := truthyStr st.address
  let shouldOnboard := options.createAccount || !hadConfiguredAccount
  if shouldOnboard then
    let st := { st with events := st.events ++ [FlowEvent.onboardCalled options.calls] }
    let ob := env.onboardResult
    let cfg0 :=
      let p := st.config.porto.getD {}
      { st.config with
        porto := some { p with address := some ob.address, chainId := some ob.chainId } }
    let st := { st with
      address := some ob.address, chainId := some ob.chainId, config := cfg0 }
    match ob.grantedPermission, options.calls with
    | some granted, some calls =>
      match st.chainId.orElse (fun _ => st.config.porto.bind (fun p => p.chainId)) with
      | none =>
        (.error { code := "MISSING_CHAIN_ID"
                  message := "No chain configured. Re-run configure with an explicit network." },
         st)
      | some resolvedChainId =>
        match assertSecureAllowlist calls ob.address with
        | .error e => (.error e, st)
        | .ok _ =>
          let st := { st with events := st.events ++ [FlowEvent.assertSecurePassed calls] }
          let cfg := ensurePermissionIdList st.config granted.id
          let cfg := setPendingPermission cfg
            { id := granted.id, chainId := resolvedChainId
              createdAt := env.nowIso, expiry := granted.expiry
              calls := calls.map stripCallEntry }
          (.ok { status := if hadConfiguredAccount then .updated else .created
                 details := [("address", ob.address)] },
           { st with config := cfg, grantedPermissionId := some granted.id
                     permissionUpdated := true })
    | _, _ =>
      (.ok { status := if hadConfiguredAccount then .updated else .created
             details := [("address", ob.address)] }, st)
  else
    (.ok { status := .already_ok, details := [] }, st)

/-- Step 3 (`permission_state`), lines 1600-1736 of `src/cli.ts`:
validate the requested allowlist, discover active and pending records,
silently drop insecure ones (hard failure for an insecure active record
when no allowlist was requested), and classify what already satisfies the
request. -/
def permissionStateStep (env : ConfigureEnv)
    (requested : Option (List GrantCallPermission)) (st : FlowSt) :
    Except AppError StepResult × FlowSt :=
  let configuredAddress := st.address.getD ""
  match (match requested with
         | some calls => assertSecureAllowlist calls configuredAddress
         | none => .ok ()) with
  | .error e => (.error e, st)
  | .ok _ =>
    let st :=
      match requested with
      | some calls => { st with events := st.events ++ [FlowEvent.assertSecurePassed calls] }
      | none => st
    let (waited, nextIdx) :=
      waitForActivePermission env.queries env.nowAt CONFIGURE_DISCOVERY_POLLS st.queryIdx
    let st := { st with
      activePermission := waited, queryIdx := nextIdx
      pendingPermission := currentPendingPermission st.config st.chainId }
    let st :=
      match st.pendingPermission with
      | some pending =>
        if allowlistHasBroadSelfCall pending.calls configuredAddress then
          { st with config := deletePendingPermission st.config, pendingPermission := none }
        else st
      | none => st
    match (match st.activePermission with
           | some active =>
             if allowlistHasBroadSelfCall active.permissions.calls configuredAddress then
               if requested.isNone then
                 Except.error
                   ({ code := "INSECURE_ACTIVE_PERMISSION"
                      message := "Active onchain permission contains broad self-call scope."
                      hint := some "Re-run with --calls to prepare a safe permission envelope without broad self-call scope." } :
                     AppError)
               else Except.ok true
             else Except.ok false
           | none => Except.ok false) with
    | .error e => (.error e, st)
    | .ok discardActive =>
      let st := if discardActive then { st with activePermission := none } else st
      if requested.isNone && st.activePermission.isNone && st.pendingPermission.isNone then
        (.error { code := "MISSING_CALL_ALLOWLIST"
                  message := "Missing required flag --calls with at least one allowlisted target for first-time configure."
                  hint := some "Re-run with --calls '[\x7b\"to\":\"0x...\"\x7d]' to establish the default permission envelope." },
         st)
      else
        let activeMatch :=
          match requested, st.activePermission with
          | some calls, some active =>
            if permissionMatchesDefaultEnvelope env.sel active.permissions calls
            then some active else none
          | _, _ => none
        match activeMatch with
        | some active =>
          let cfg := deletePendingPermission (ensurePermissionIdList st.config active.id)
          (.ok { status := .already_ok
                 details := [("permissionId", active.id), ("state", "active_onchain")] },
           { st with config := cfg, activationState := "active_onchain"
                     grantedPermissionId := some active.id })
        | none =>
          let pendingMatch :=
            match requested, st.pendingPermission with
            | some calls, some pending =>
              if permissionMatchesDefaultEnvelope env.sel
                  { calls := pending.calls
                    spend := [{ limit := DEFAULT_PERMISSION_DAILY_USD * 1000000
                                period := "day" }] }
                  calls
              then some pending else none
            | _, _ => none
          match pendingMatch with
          | some pending =>
            let cfg := ensurePermissionIdList st.config pending.id
            (.ok { status := .already_ok
                   details := [("permissionId", pending.id), ("state", "pending_activation")] },
             { st with config := cfg, activationState := "pending_activation"
                       grantedPermissionId := some pending.id })
          | none =>
            let st := { st with requiresGrant := requested.isSome }
            match st.activePermission with
            | some active =>
              let cfg := ensurePermissionIdList st.config active.id
              (.ok { status := .already_ok
                     details := [("permissionId", active.id), ("state", "active_onchain")] },
               { st with config := cfg, grantedPermissionId := some active.id })
            | none =>
              match st.pendingPermission with
              | some pending =>
                let cfg := ensurePermissionIdList st.config pending.id
                (.ok { status := .updated
                       details := [("permissionId", pending.id), ("state", "pending_activation")] },
                 { st with config := cfg, grantedPermissionId := some pending.id })
              | none =>
                (.ok { status := .updated
                       details := [("reason", "Requested permission differs from current state and will be prepared.")] },
                 st)

/-- Step 4 (`permission_preparation`): skip when no grant is required;
otherwise issue `porto.grant` and persist the result as the new pending
record. -/
def permissionPreparationStep (env : ConfigureEnv)
    (requested : Option (List GrantCallPermission)) (st : FlowSt) :
    Except AppError StepResult × FlowSt :=
  if !st.requiresGrant then
    (.ok { status := .already_ok, details := [("reason", "No new grant needed.")] }, st)
  else
    match requested with
    | none =>
      (.error { code := "MISSING_CALL_ALLOWLIST"
                message := "Missing required flag --calls with at least one allowlisted target for first-time configure."
                hint := some "Re-run with --calls '[\x7b\"to\":\"0x...\"\x7d]' to establish the default permission envelope." },
       st)
    | some calls =>
      let st := { st with events := st.events ++ [FlowEvent.grantCalled calls] }
      let granted := env.grantResult
      let st := { st with
        permissionUpdated := true, grantedPermissionId := some granted.permissionId }
      match st.chainId.orElse (fun _ => st.config.porto.bind (fun p => p.chainId)) with
      | none =>
        (.error { code := "MISSING_CHAIN_ID"
                  message := "No chain configured. Re-run configure with an explicit network." },
         st)
      | some resolvedChainId =>
        let cfg := ensurePermissionIdList st.config granted.permissionId
        let cfg := setPendingPermission cfg
          { id := granted.permissionId, chainId := resolvedChainId
            createdAt := env.nowIso, expiry := granted.expiry
            calls := calls.map stripCallEntry }
        (.ok { status := .updated
               details := [("permissionId", granted.permissionId)] },
         { st with config := cfg })

/-- The pending tail of step 5: reached when no active record was
confirmed as the desired one. -/
def classificationPendingTail (st : FlowSt) :
    Except AppError StepResult × FlowSt :=
  let pending := currentPendingPermission st.config st.chainId
  if pending.isNone && !truthyStr st.grantedPermissionId then
    (.error { code := "PERMISSION_NOT_FINALIZED"
              message := "No active onchain permission and no pending precall state were found."
              hint := some "Re-run configure with --calls to prepare permissions again." },
     st)
  else
    let st :=
      match pending with
      | some p => if !p.id.isEmpty then { st with grantedPermissionId := some p.id } else st
      | none => st
    (.ok { status := .updated
           details := [("permissionId", st.grantedPermissionId.getD "null"),
                       ("state", st.activationState)] },
     st)

/-- Step 5 (`permission_classification`), lines 1825-1888 of
`src/cli.ts`: re-discover the active record, classify the activation
state by matching the single highest-expiry active record against the
desired allowlist, clear the pending record when active, and otherwise
report the pending state. -/
def permissionClassificationStep (env : ConfigureEnv)
    (requested : Option (List GrantCallPermission)) (st : FlowSt) :
    Except AppError StepResult × FlowSt :=
  let (waited, nextIdx) :=
    waitForActivePermission env.queries env.nowAt CONFIGURE_DISCOVERY_POLLS st.queryIdx
  let st := { st with
    activePermission := waited, queryIdx := nextIdx
    pendingPermission := currentPendingPermission st.config st.chainId }
  let desiredAllowlist :=
    match requested with
    | some calls => some calls
    | none => st.pendingPermission.map (fun p => p.calls)
  let activationState :=
    match st.activePermission, desiredAllowlist with
    | some active, some desired =>
      if permissionMatchesDefaultEnvelope env.sel active.permissions desired
      then "active_onchain" else "pending_activation"
    | some _, none => "active_onchain"
    | none, _ => "pending_activation"
  let st := { st with activationState := activationState }
  match st.activePermission with
  | some active =>
    if activationState = "active_onchain" then
      let cfg := deletePendingPermission (ensurePermissionIdList st.config active.id)
      (.ok { status := if st.permissionUpdated then .updated else .already_ok
             details := [("permissionId", active.id), ("state", activationState),
                         ("expiresAt", env.isoOfEpoch active.expiry)] },
       { st with config := cfg, grantedPermissionId := some active.id })
    else classificationPendingTail st
  | none => classificationPendingTail st

/-- Step 6 (`outcome`): the final operator-facing verdict. -/
def outcomeStep (st : FlowSt) : Except AppError StepResult × FlowSt :=
  if st.activationState = "active_onchain" then
    (.ok { status := .already_ok
           details := [("permissionId", st.grantedPermissionId.getD "null"),
                       ("state", st.activationState)] },
     st)
  else
    (.ok { status := .updated
           details := [("permissionId", st.grantedPermissionId.getD "null"),
                       ("state", st.activationState),
                       ("nextAction", "Run your first allowlisted sign call to consume the precall and activate onchain.")] },
     st)

/-- Outcome of one flow run: the checkpoint list, the aborting error (if
any) and the final state (config, event trace, locals). -/
structure FlowOutcome where
  checkpoints : List Checkpoint
  error : Option AppError := none
  finalSt : FlowSt
deriving DecidableEq, Repr

/-- Function `runConfigureStep` from `src/cli.ts`: run one step, append
its checkpoint, and on failure append a synthetic `failed` checkpoint
carrying the error and next action, aborting the flow. -/
def runFlowStep (name : String)
    (step : FlowSt → Except AppError StepResult × FlowSt)
    (acc : List Checkpoint × FlowSt) :
    Except (AppError × List Checkpoint × FlowSt) (List Checkpoint × FlowSt) :=
  match step acc.2 with
  | (.ok result, st) =>
    .ok (acc.1 ++ [{ checkpoint := name, status := result.status
                     details := result.details }], st)
  | (.error e, st) =>
    .error (e, acc.1 ++ [{ checkpoint := name, status := .failed
                           details := [("code", e.code), ("message", e.message),
                                       ("nextAction", nextActionForConfigureError name e)] }],
            st)

/-- The `if (!address)` guard between the account step and the
permission steps (`makeCheckpointFailure('account', ...)`). -/
def addressGuard (acc : List Checkpoint × FlowSt) :
    Except (AppError × List Checkpoint × FlowSt) (List Checkpoint × FlowSt) :=
  if !truthyStr acc.2.address then
    let e : AppError :=
      { code := "MISSING_ACCOUNT_ADDRESS"
        message := "No account is configured. Run `agent-wallet configure` again." }
    .error (e, acc.1 ++ [{ checkpoint := "account", status := .failed
                           details := [("code", e.code), ("message", e.message),
                                       ("nextAction", nextActionForConfigureError "account" e)] }],
            acc.2)
  else .ok acc

/-- The initial flow state of `runConfigureFlow` (the local variables
`address` and `chainId` read from the config). -/
def flowInit (config : AgentWalletConfig) : FlowSt :=
  { config := config
    address := config.porto.bind (fun p => p.address)
    chainId := config.porto.bind (fun p => p.chainId) }

/-- Function `runConfigureFlow` from `src/cli.ts`: the six checkpointed
steps in order, aborting at the first failing step. -/
def runConfigureFlow (env : ConfigureEnv) (options : ConfigureOptions)
    (config : AgentWalletConfig) : FlowOutcome :=
  let requested := options.calls
  let st0 : FlowSt := flowInit config
  let flowResult :=
    (runFlowStep "agent_key" (agentKeyStep env) ([], st0)).bind
    (runFlowStep "account" (accountStep env options)) |>.bind
    addressGuard |>.bind
    (runFlowStep "permission_state" (permissionStateStep env requested)) |>.bind
    (runFlowStep "permission_preparation" (permissionPreparationStep env requested)) |>.bind
    (runFlowStep "permission_classification" (permissionClassificationStep env requested)) |>.bind
    (runFlowStep "outcome" outcomeStep)
  match flowResult with
  | .ok (checkpoints, st) => { checkpoints := checkpoints, finalSt := st }
  | .error (e, checkpoints, st) =>
    { checkpoints := checkpoints, error := some e, finalSt := st }

theorem lower_eq_empty_iff (s : String) : lower s = "" ↔ s = "" := by
  constructor
  · intro h
    have hd := congrArg String.data h
    simp [lower] at hd
    exact String.ext hd
  · intro h; subst h; rfl

theorem lower_isEmpty (s : String) : (lower s).isEmpty = s.isEmpty := by
  by_cases h : s = ""
  · subst h; rfl
  · have h1 : (lower s).isEmpty = false := by
      rw [Bool.eq_false_iff]
      intro hc
      exact h ((lower_eq_empty_iff s).mp ((String.isEmpty_iff _).mp hc))
    have h2 : s.isEmpty = false := by
      rw [Bool.eq_false_iff]
      intro hc
      exact h ((String.isEmpty_iff _).mp hc)
    rw [h1, h2]

def UnsafeSelfCall (entry : GrantCallPermission) (account : String) : Prop :=
  (∃ t, entry.toAddr = some t ∧ lower t = lower account) ∧
    (entry.signature = none ∨
      ∃ s, entry.signature = some s ∧ lower s = PORTO_ANY_SELECTOR)

def WfEntry (entry : GrantCallPermission) : Prop :=
  (∀ t, entry.toAddr = some t → t ≠ "") ∧
    (∀ s, entry.signature = some s → s ≠ "")

theorem isBroadSelfCallEntry_iff (entry : GrantCallPermission) (account : String)
    (hwf : WfEntry entry) :
    isBroadSelfCallEntry entry account = true ↔ UnsafeSelfCall entry account := by
  obtain ⟨hto, hsig⟩ := hwf
  unfold isBroadSelfCallEntry UnsafeSelfCall
  cases hta : entry.toAddr with
  | none => simp
  | some t =>
    have ht : t ≠ "" := hto t hta
    have htE : (lower t).isEmpty = false := by
      rw [lower_isEmpty, Bool.eq_false_iff]
      intro hc
      exact ht ((String.isEmpty_iff _).mp hc)
    cases hsa : entry.signature with
    | none =>
      simp [htE]
    | some s =>
      have hs : s ≠ "" := hsig s hsa
      have hsE : (lower s).isEmpty = false := by
        rw [lower_isEmpty, Bool.eq_false_iff]
        intro hc
        exact hs ((String.isEmpty_iff _).mp hc)
      simp [htE, hsE]

/-- Claim C1: for every call-scope entry and account address, the
Security Validator classifies the entry as an unsafe self-call exactly
when the entry's target equals the account's own address compared
case-insensitively and its selector is absent or equal to the
wildcard-any selector 0x32323232; and `assertSecureAllowlist` fails with
INSECURE_SELF_ALLOWLIST if and only if at least one entry of the
allowlist is such an unsafe self-call, regardless of other entries. -/
theorem secValidator_unsafe_selfcall_iff
    (allowlist : List GrantCallPermission) (account : String)
    (hwf : ∀ e ∈ allowlist, WfEntry e) :
    (∀ e ∈ allowlist,
      (isBroadSelfCallEntry e account = true ↔ UnsafeSelfCall e account)) ∧
    ((∃ err, assertSecureAllowlist allowlist account = .error err ∧
        err.code = "INSECURE_SELF_ALLOWLIST") ↔
      ∃ e ∈ allowlist, UnsafeSelfCall e account) := by
  constructor
  · intro e he
    exact isBroadSelfCallEntry_iff e account (hwf e he)
  · unfold assertSecureAllowlist
    by_cases h : allowlistHasBroadSelfCall allowlist account = true
    · simp [h]
      unfold allowlistHasBroadSelfCall at h
      rw [List.any_eq_true] at h
      obtain ⟨e, he, hb⟩ := h
      exact ⟨e, he, (isBroadSelfCallEntry_iff e account (hwf e he)).mp hb⟩
    · rw [Bool.not_eq_true] at h
      simp [h]
      intro e he hu
      have hb := (isBroadSelfCallEntry_iff e account (hwf e he)).mpr hu
      unfold allowlistHasBroadSelfCall at h
      rw [List.any_eq_false] at h
      exact absurd hb (by simpa using h e he)

theorem secValidator_unsafe_selfcall_iff_witness :
    isBroadSelfCallEntry
      { toAddr := some "0xAbCd", signature := some "0x32323232" } "0xabcd" = true ↔
    UnsafeSelfCall
      { toAddr := some "0xAbCd", signature := some "0x32323232" } "0xabcd" :=
  (secValidator_unsafe_selfcall_iff
    [{ toAddr := some "0xAbCd", signature := some "0x32323232" },
     { toAddr := some "0xeeee", signature := some "0xa9059cbb" }] "0xabcd"
    (by
      intro e he
      simp [WfEntry] at he ⊢
      rcases he with h | h <;> subst h <;> constructor <;> intro x hx <;>
        (simp at hx; subst hx; decide))).1
    _ (by simp)

/-- Claim C9: every entry whose target is absent or differs
case-insensitively from the account's own address is not classified as a
broad self-call, and in particular the fully wildcard entry (any-target
sentinel paired with the any-selector sentinel) passes the Security
Validator for any account other than the sentinel itself. -/
theorem non_selfcall_entries_pass
    (entry : GrantCallPermission) (account : String)
    (h : entry.toAddr = none ∨ ∀ t, entry.toAddr = some t → lower t ≠ lower account)
    (hacc : lower account ≠ PORTO_ANY_TARGET) :
    isBroadSelfCallEntry entry account = false ∧
    assertSecureAllowlist
      [{ toAddr := some PORTO_ANY_TARGET, signature := some PORTO_ANY_SELECTOR }]
      account = .ok () := by
  constructor
  · unfold isBroadSelfCallEntry
    cases hta : entry.toAddr with
    | none => simp
    | some t =>
      rcases h with h | h
      · simp [hta] at h
      · have hne := h t hta
        simp [hne]
  · have hsent : lower PORTO_ANY_TARGET = PORTO_ANY_TARGET := by decide
    unfold assertSecureAllowlist allowlistHasBroadSelfCall
    have hne : (PORTO_ANY_TARGET : String) ≠ lower account := fun hh => hacc hh.symm
    have hE : (PORTO_ANY_TARGET : String).isEmpty = false := by decide
    have hfalse : isBroadSelfCallEntry
        { toAddr := some PORTO_ANY_TARGET, signature := some PORTO_ANY_SELECTOR }
        account = false := by
      unfold isBroadSelfCallEntry
      simp [hsent, hE, hne]
    simp [hfalse]

theorem non_selfcall_entries_pass_witness :
    isBroadSelfCallEntry
      { toAddr := some "0x0000000000000000000000000000000000000000"
        signature := none } "0xabcd" = false ∧
    assertSecureAllowlist
      [{ toAddr := some PORTO_ANY_TARGET, signature := some PORTO_ANY_SELECTOR }]
      "0xabcd" = .ok () :=
  non_selfcall_entries_pass _ _ (Or.inr (by intro t ht; cases ht; decide)) (by decide)

theorem isEmpty_false_of_ne {s : String} (h : s ≠ "") : s.isEmpty = false := by
  rw [Bool.eq_false_iff]
  intro hc
  exact h ((String.isEmpty_iff _).mp hc)

/-- Claim C8: under the matcher's call-scope normalization (1) the
wildcard entry with absent target and selector normalizes identically to
the explicit sentinel pair (any-target 0x3232...32 with any-selector
0x32323232); (2) a textual function signature that the selector encoder
reduces to a 4-byte selector normalizes identically to the entry already
holding that selector; and (3) when selector reduction fails the entry
is compared by its case-insensitively lowered raw string, with no
failure raised. -/
theorem normalization_wildcard_selector_fallback :
    (∀ sel : String → Option String,
      normalizeCallEntry sel { toAddr := none, signature := none } = "*|*" ∧
      normalizeCallEntry sel
        { toAddr := some PORTO_ANY_TARGET, signature := some PORTO_ANY_SELECTOR } =
        "*|*") ∧
    (∀ (sel : String → Option String) (toA : Option String) (sig selBytes : String),
      isHexSelector (some (lower sig)) = false →
      lower sig ≠ "" →
      lower sig ≠ PORTO_ANY_SELECTOR →
      sel (lower sig) = some selBytes →
      lower selBytes = selBytes →
      isHexSelector (some selBytes) = true →
      selBytes ≠ PORTO_ANY_SELECTOR →
      normalizeCallEntry sel { toAddr := toA, signature := some sig } =
        normalizeCallEntry sel { toAddr := toA, signature := some selBytes }) ∧
    (∀ (sel : String → Option String) (toA : Option String) (sig1 sig2 : String),
      sel (lower sig1) = none →
      isHexSelector (some (lower sig1)) = false →
      lower sig1 ≠ "" →
      lower sig1 ≠ PORTO_ANY_SELECTOR →
      lower sig1 = lower sig2 →
      normalizeCallEntry sel { toAddr := toA, signature := some sig1 } =
        normalizeCallEntry sel { toAddr := toA, signature := some sig2 }) := by
  refine ⟨?_, ?_, ?_⟩
  · intro sel
    have e1 : lower PORTO_ANY_SELECTOR = PORTO_ANY_SELECTOR := by decide
    have e2 : lower PORTO_ANY_TARGET = PORTO_ANY_TARGET := by decide
    refine ⟨rfl, ?_⟩
    simp [normalizeCallEntry, e1, e2]
    decide
  · intro sel toA sig selBytes h1 h2 h3 h4 h5 h6 h7
    have hE1 : (lower sig).isEmpty = false := isEmpty_false_of_ne h2
    have hE2 : selBytes.isEmpty = false := by
      unfold isHexSelector at h6
      simp at h6
      exact h6.1.1.1
    simp [normalizeCallEntry, hE1, hE2, h1, h3, h4, h5, h6, h7]
  · intro sel toA sig1 sig2 h1 h2 h3 h4 heq
    have hE1 : (lower sig1).isEmpty = false := isEmpty_false_of_ne h3
    simp [normalizeCallEntry, ← heq, hE1, h1, h2, h3, h4]

theorem normalization_wildcard_selector_fallback_witness :
    normalizeCallEntry
      (fun t => if t = "transfer(address,uint256)" then some "0xa9059cbb" else none)
      { toAddr := some "0xEEee", signature := some "transfer(address,uint256)" } =
    normalizeCallEntry
      (fun t => if t = "transfer(address,uint256)" then some "0xa9059cbb" else none)
      { toAddr := some "0xEEee", signature := some "0xa9059cbb" } :=
  normalization_wildcard_selector_fallback.2.1
    (fun t => if t = "transfer(address,uint256)" then some "0xa9059cbb" else none)
    (some "0xEEee") "transfer(address,uint256)" "0xa9059cbb"
    (by decide) (by decide) (by decide) (by decide) (by decide) (by decide) (by decide)

/-- Spec-level token condition of the spend matcher: absent desired token
means the observed token must canonicalize to native; a present desired
token must equal the observed one case-insensitively. -/
def TokenOk (desiredToken observedToken : Option String) : Prop :=
  match desiredToken with
  | none => isNativeToken observedToken = true
  | some t => ∃ st, observedToken = some st ∧ lower st = lower t

/-- Claim C7: the service module's `spendMatch` holds exactly when the
observed record contains a spend entry whose period equals the desired
period, whose limit equals the desired cap exactly, and whose token
after canonicalization (absent or zero address treated as native) equals
the desired token; whereas the reconciliation flow's spend check
`includesDailySpendLimit` holds exactly when some entry has period day
and the exact default cap, ignoring the token entirely. -/
theorem spend_match_characterization :
    (∀ (desiredPeriod : String) (desiredLimit : Int) (desiredToken : Option String)
       (spend : List SpendEntry),
      (spendMatch desiredPeriod desiredLimit desiredToken spend = true ↔
        ∃ s ∈ spend, s.period = desiredPeriod ∧ s.limit = desiredLimit ∧
          TokenOk desiredToken s.token)) ∧
    (∀ permissions : PermissionSet,
      (includesDailySpendLimit permissions = true ↔
        ∃ s ∈ permissions.spend, s.period = "day" ∧
          s.limit = DEFAULT_PERMISSION_DAILY_USD * 1000000)) ∧
    (∀ (permissions : PermissionSet) (f : Option String → Option String),
      includesDailySpendLimit
        { permissions with
          spend := permissions.spend.map (fun s => { s with token := f s.token }) } =
      includesDailySpendLimit permissions) := by
  refine ⟨?_, ?_, ?_⟩
  · intro dp dl dt spend
    unfold spendMatch
    rw [List.any_eq_true]
    constructor
    · rintro ⟨s, hs, hb⟩
      refine ⟨s, hs, ?_⟩
      by_cases h1 : s.period = dp
      · by_cases h2 : s.limit = dl
        · refine ⟨h1, h2, ?_⟩
          simp [h1, h2] at hb
          cases dt with
          | none => simpa [TokenOk] using hb
          | some t =>
            cases hst : s.token with
            | none => simp [hst] at hb
            | some st =>
              simp [hst] at hb
              exact ⟨st, rfl, hb⟩
        · simp [h1, h2] at hb
      · simp [h1] at hb
    · rintro ⟨s, hs, h1, h2, htok⟩
      refine ⟨s, hs, ?_⟩
      cases dt with
      | none => simpa [h1, h2, TokenOk] using htok
      | some t =>
        obtain ⟨st, hst, hl⟩ := htok
        simp [h1, h2, hst, hl]
  · intro permissions
    unfold includesDailySpendLimit
    rw [List.any_eq_true]
    constructor
    · rintro ⟨s, hs, hb⟩
      simp at hb
      exact ⟨s, hs, hb⟩
    · rintro ⟨s, hs, h1, h2⟩
      exact ⟨s, hs, by simp [h1, h2]⟩
  · intro permissions f
    unfold includesDailySpendLimit
    rw [List.any_map]
    rfl

/-- Counterexample for C7: the reconciliation-flow spend check accepts a
spend entry whose token is a non-native ERC-20, even though the desired
default envelope has no token (native); the unnamed service module's
`spendMatch` rejects the same entry for the same desired values. -/
theorem includesDailySpendLimit_ignores_token :
    includesDailySpendLimit
      { spend := [{ limit := 100000000, period := "day"
                    token := some "0xfca413a634c4df6b98ebb970a44d9a32f8f5c64e" }] } = true ∧
    isNativeToken (some "0xfca413a634c4df6b98ebb970a44d9a32f8f5c64e") = false ∧
    spendMatch "day" 100000000 none
      [{ limit := 100000000, period := "day"
         token := some "0xfca413a634c4df6b98ebb970a44d9a32f8f5c64e" }] = false := by
  decide

/-- Counterexample for C2: an observed record with call scope containing
entries for targets A and B fails the reconciliation matcher against a
desired policy that requests only A, even though every desired entry is
present in the observed scope (the matcher requires equal entry counts);
the unnamed service module's `callsMatch` accepts it. -/
theorem allowlist_subset_counterexample :
    callsMatch [{ toAddr := "0xaaaa" }]
      [{ toAddr := some "0xaaaa" }, { toAddr := some "0xbbbb" }] = true ∧
    permissionMatchesRequestedAllowlist (fun _ => none)
      { calls := [{ toAddr := some "0xaaaa" }, { toAddr := some "0xbbbb" }] }
      [{ toAddr := some "0xaaaa" }] = false := by
  decide

/-- Claim C2: the service module's `callsMatch` is a subset check — an
observed scope satisfying a desired policy still satisfies it after
appending extra entries — but the reconciliation flow's matcher
`permissionMatchesRequestedAllowlist` accepts only records whose
call-scope length equals the requested allowlist's length, so it is an
exact-set comparison rather than a subset check. -/
theorem callsMatch_subset_and_cli_exact
    (desired : List PolicyCallEntry) (observed extra : List GrantCallPermission)
    (h : callsMatch desired observed = true) :
    callsMatch desired (observed ++ extra) = true ∧
    (∀ (sel : String → Option String) (perm : PermissionSet)
       (req : List GrantCallPermission),
      permissionMatchesRequestedAllowlist sel perm req = true →
      perm.calls.length = req.length) := by
  constructor
  · unfold callsMatch at h ⊢
    rw [List.all_eq_true] at h ⊢
    intro d hd
    have hx := h d hd
    rw [List.any_append]
    rw [Bool.or_eq_true]
    exact Or.inl hx
  · intro sel perm req hm
    unfold permissionMatchesRequestedAllowlist at hm
    by_cases hlen : req.length = perm.calls.length
    · exact hlen.symm
    · simp [hlen] at hm

theorem callsMatch_subset_and_cli_exact_witness :
    callsMatch [{ toAddr := "0xaaaa" }]
      ([{ toAddr := some "0xaaaa" }] ++ [{ toAddr := some "0xbbbb" }]) = true ∧
    (∀ (sel : String → Option String) (perm : PermissionSet)
       (req : List GrantCallPermission),
      permissionMatchesRequestedAllowlist sel perm req = true →
      perm.calls.length = req.length) :=
  callsMatch_subset_and_cli_exact [{ toAddr := "0xaaaa" }]
    [{ toAddr := some "0xaaaa" }] [{ toAddr := some "0xbbbb" }] (by decide)

/-- Claim C10: every capability record returned by `listAgentPermissions`
comes from a relay entry that parses as a well-formed key record with
role normal, matching key type and case-insensitively matching public
key, and not expired unless expired records were requested; entries
whose role is not normal (such as admin) never contribute a record. -/
theorem listAgentPermissions_role_normal
    (relayValues : List JVal) (agentKey : AgentKey) (nowSeconds : Int)
    (includeExpired : Bool) :
    (∀ s ∈ listAgentPermissions relayValues agentKey nowSeconds includeExpired,
      ∃ c ∈ flattenRelayValues relayValues,
        isRelayKeyRecord c = true ∧ roleOf c = "normal" ∧
        normalizeRelayKeyType (keyTypeOf c) = agentKey.type ∧
        lower (publicKeyOf c) = lower agentKey.publicKey ∧
        (includeExpired = true ∨ nowSeconds < expiryOf c) ∧
        s = relaySnapshot c) ∧
    ((∀ c ∈ flattenRelayValues relayValues, roleOf c ≠ "normal") →
      listAgentPermissions relayValues agentKey nowSeconds includeExpired = []) := by
  constructor
  · intro s hs
    unfold listAgentPermissions at hs
    simp only [List.mem_map, List.mem_filter, decide_eq_true_eq] at hs
    obtain ⟨c, ⟨⟨⟨⟨⟨hcFlat, hwf⟩, hrole⟩, htype⟩, hkey⟩, hexp⟩, hsnap⟩ := hs
    refine ⟨c, hcFlat, hwf, hrole, htype, hkey, ?_, hsnap.symm⟩
    cases includeExpired with
    | true => exact Or.inl rfl
    | false => exact Or.inr (by simpa using hexp)
  · intro hnone
    unfold listAgentPermissions
    have h1 : ((flattenRelayValues relayValues).filter isRelayKeyRecord).filter
        (fun c => roleOf c = "normal") = [] := by
      rw [List.filter_eq_nil_iff]
      intro c hc
      have hcf : c ∈ flattenRelayValues relayValues := (List.mem_filter.mp hc).1
      simpa using hnone c hcf
    simp [h1]

theorem listAgentPermissions_role_normal_witness :
    ∃ c ∈ flattenRelayValues
        [JVal.jarr [JVal.jobj
          [("expiry", JVal.jnum 100), ("publicKey", JVal.jstr "0xkey"),
           ("role", JVal.jstr "normal"), ("type", JVal.jstr "p256"),
           ("permissions", JVal.jarr [])]]],
      isRelayKeyRecord c = true ∧ roleOf c = "normal" ∧
      normalizeRelayKeyType (keyTypeOf c) = "p256" ∧
      lower (publicKeyOf c) = lower "0xKEY" ∧
      ((false : Bool) = true ∨ (0 : Int) < expiryOf c) ∧
      relaySnapshot (JVal.jobj
          [("expiry", JVal.jnum 100), ("publicKey", JVal.jstr "0xkey"),
           ("role", JVal.jstr "normal"), ("type", JVal.jstr "p256"),
           ("permissions", JVal.jarr [])]) = relaySnapshot c :=
  (listAgentPermissions_role_normal
    [JVal.jarr [JVal.jobj
      [("expiry", JVal.jnum 100), ("publicKey", JVal.jstr "0xkey"),
       ("role", JVal.jstr "normal"), ("type", JVal.jstr "p256"),
       ("permissions", JVal.jarr [])]]]
    { publicKey := "0xKEY", type := "p256" } 0 false).1
    _ (by decide)

/-- Concrete environment exercising the onboarding path: the platform
returns account `0xacc0` on chain 8453 and grants the requested
permission during onboarding. -/
def envOnboard : ConfigureEnv :=
  { signerCreated := true
    signerKeyId := "key"
    onboardResult := { address := "0xacc0", chainId := 8453
                       grantedPermission := some { id := "0xp1", expiry := 100 } }
    grantResult := { permissionId := "0xp2", expiry := 100 }
    queries := fun _ => []
    nowAt := fun _ => 0
    nowIso := "t0"
    isoOfEpoch := fun _ => "iso"
    sel := fun _ => none }

/-- An allowlist entry targeting the account itself with no selector: a
broad self-call entry for account `0xacc0`. -/
def insecureSelfEntry : GrantCallPermission := { toAddr := some "0xacc0" }

/-- Counterexample for C3: on a first run with `--calls` containing a
broad self-call entry and no configured account, the flow issues
`porto.onboard` with the allowlist attached as grant options before any
security validation; the validator only rejects afterwards, so the trace
contains the onboarding grant request and no successful validation. -/
theorem onboard_grant_before_validation :
    (runConfigureFlow envOnboard { calls := some [insecureSelfEntry] }
      { porto := none }).finalSt.events =
      [FlowEvent.onboardCalled (some [insecureSelfEntry])] ∧
    allowlistHasBroadSelfCall [insecureSelfEntry] envOnboard.onboardResult.address = true ∧
    ((runConfigureFlow envOnboard { calls := some [insecureSelfEntry] }
      { porto := none }).error.map (fun e => e.code)) = some "INSECURE_SELF_ALLOWLIST" := by
  refine ⟨by decide, by decide, by decide⟩

/-- Sample benign allowlist entry for target `0xaaaa`. -/
def benignEntry : GrantCallPermission := { toAddr := some "0xaaaa" }

/-- A pending record for chain 8453 whose call scope is a broad
self-call on account `0xacc0`. -/
def insecurePending : PendingPermissionState :=
  { id := "0xpend", chainId := 8453, createdAt := "t", expiry := 1000
    calls := [{ toAddr := some "0xacc0" }] }

/-- Flow state holding the insecure pending record. -/
def stWithInsecurePending : FlowSt :=
  { config := { porto := some { address := some "0xacc0", chainId := some 8453
                                permissionIds := [], pendingPermission := some insecurePending } }
    address := some "0xacc0"
    chainId := some 8453 }

/-- The same flow state with the pending record absent. -/
def stWithoutPending : FlowSt :=
  { config := { porto := some { address := some "0xacc0", chainId := some 8453
                                permissionIds := [], pendingPermission := none } }
    address := some "0xacc0"
    chainId := some 8453 }

/-- Counterexample for C4: the state-discovery step deletes an insecure
pending record but surfaces nothing — its entire output (result,
checkpoint details and final state) is identical to a run in which the
insecure record was never present, so the condition is silently filtered
rather than surfaced. -/
theorem insecure_pending_silently_filtered :
    permissionStateStep envOnboard (some [benignEntry]) stWithInsecurePending =
      permissionStateStep envOnboard (some [benignEntry]) stWithoutPending ∧
    currentPendingPermission stWithInsecurePending.config stWithInsecurePending.chainId =
      some insecurePending ∧
    allowlistHasBroadSelfCall insecurePending.calls "0xacc0" = true ∧
    currentPendingPermission stWithoutPending.config stWithoutPending.chainId = none := by
  refine ⟨rfl, by decide, by decide, by decide⟩

/-- The desired allowlist of the C5 scenario. -/
def desiredA : List GrantCallPermission := [{ toAddr := some "0xaaaa" }]

/-- An active record matching the desired policy (expiry 100). -/
def matchingActive : PermissionSnapshot :=
  { id := "0xmatch", expiry := 100
    permissions := { calls := [{ toAddr := some "0xaaaa" }]
                     spend := [{ limit := 100000000, period := "day" }] } }

/-- An active record not matching the desired policy, with a higher
expiry (200), so discovery surfaces it instead of the matching one. -/
def nonMatchingActive : PermissionSnapshot :=
  { id := "0xnon", expiry := 200
    permissions := { calls := [{ toAddr := some "0xbbbb" }]
                     spend := [{ limit := 100000000, period := "day" }] } }

/-- Environment whose every permission query returns both records. -/
def envTwoActives : ConfigureEnv :=
  { envOnboard with queries := fun _ => [nonMatchingActive, matchingActive] }

/-- The pending record of the C5 scenario. -/
def pendingA : PendingPermissionState :=
  { id := "0xpend", chainId := 8453, createdAt := "t", expiry := 1000
    calls := [{ toAddr := some "0xaaaa" }] }

/-- Flow state with account, chain and the pending record configured. -/
def stPendingA : FlowSt :=
  { config := { porto := some { address := some "0xacc0", chainId := some 8453
                                permissionIds := [], pendingPermission := some pendingA } }
    address := some "0xacc0"
    chainId := some 8453 }

/-- Counterexample for C5: a matching active record is observed on the
very first poll (before any deadline), yet classification returns
`pending_activation` and keeps the pending record, because the poll loop
stops at the first *any* active record and only the single highest-expiry
record is matched against the desired policy. -/
theorem classification_ignores_matching_record :
    isActivePermission matchingActive (envTwoActives.nowAt 0) = true ∧
    matchingActive ∈ envTwoActives.queries 0 ∧
    permissionMatchesDefaultEnvelope envTwoActives.sel matchingActive.permissions desiredA = true ∧
    (permissionClassificationStep envTwoActives (some desiredA) stPendingA).1 =
      Except.ok { status := .updated
                  details := [("permissionId", "0xpend"), ("state", "pending_activation")] } ∧
    currentPendingPermission
      (permissionClassificationStep envTwoActives (some desiredA) stPendingA).2.config
      (some 8453) = some pendingA := by
  refine ⟨by decide, by decide, by decide, rfl, rfl⟩

/-- Second-run environment: the signer key already exists and the
platform still reports no active record (the grant has not settled). -/
def envSecondRun : ConfigureEnv := { envOnboard with signerCreated := false }

/-- Configure options requesting allowlist `[benignEntry]`. -/
def optsBenign : ConfigureOptions := { calls := some [benignEntry] }

/-- The pending record persisted by the first run's onboarding grant. -/
def pendingP1 : PendingPermissionState :=
  { id := "0xp1", chainId := 8453, createdAt := "t0", expiry := 100
    calls := [{ toAddr := some "0xaaaa" }] }

/-- The porto config section left behind by the first run. -/
def portoP1 : PortoState :=
  { address := some "0xacc0", chainId := some 8453, permissionIds := ["0xp1"]
    pendingPermission := some pendingP1 }

/-- Local config left behind by the first run of the C6 scenario. -/
def cfgAfterFirstRun : AgentWalletConfig := { porto := some portoP1 }

/-- Flow state after the first run's account step (onboarded, granted,
pending persisted). -/
def s2Run1 : FlowSt :=
  { config := cfgAfterFirstRun
    address := some "0xacc0"
    chainId := some 8453
    grantedPermissionId := some "0xp1"
    permissionUpdated := true
    events := [FlowEvent.onboardCalled (some [benignEntry]),
               FlowEvent.assertSecurePassed [benignEntry]] }

theorem orderedInsert_length (le : α → α → Bool) (x : α) (l : List α) :
    (orderedInsert le x l).length = l.length + 1 := by
  induction l with
  | nil => rfl
  | cons y ys ih =>
    unfold orderedInsert
    by_cases h : le y x = true
    · simp [h, ih]
    · simp [h]

theorem stableSort_length (le : α → α → Bool) (l : List α) :
    (stableSort le l).length = l.length := by
  unfold stableSort
  suffices h : ∀ acc : List α,
      (l.foldl (fun acc x => orderedInsert le x acc) acc).length = acc.length + l.length by
    simpa using h []
  induction l with
  | nil => intro acc; simp
  | cons y ys ih =>
    intro acc
    simp only [List.foldl_cons, List.length_cons]
    rw [ih (orderedInsert le y acc), orderedInsert_length]
    omega

theorem stableSort_eq_nil_iff (le : α → α → Bool) (l : List α) :
    stableSort le l = [] ↔ l = [] := by
  constructor
  · intro h
    have hl := stableSort_length le l
    rw [h] at hl
    exact List.length_eq_zero.mp hl.symm
  · intro h; subst h; rfl

theorem sorted_head_none_filter_nil {l : List PermissionSnapshot}
    {p : PermissionSnapshot → Bool}
    (hh : (sortByExpiryDesc (l.filter p)).head? = none) : l.filter p = [] := by
  unfold sortByExpiryDesc at hh
  rw [List.head?_eq_none_iff] at hh
  exact (stableSort_eq_nil_iff _ _).mp hh

theorem sorted_head_some_filter_ne {l : List PermissionSnapshot}
    {p : PermissionSnapshot → Bool} {x : PermissionSnapshot}
    (hh : (sortByExpiryDesc (l.filter p)).head? = some x) : l.filter p ≠ [] := by
  intro hc
  rw [hc] at hh
  simp [sortByExpiryDesc, stableSort] at hh

theorem waitForActivePermission_none_iff
    (queries : Nat → List PermissionSnapshot) (nowAt : Nat → Int)
    (fuel k : Nat) :
    (waitForActivePermission queries nowAt fuel k).1 = none ↔
    ∀ j, k ≤ j → j ≤ k + fuel →
      (queries j).filter (fun p => isActivePermission p (nowAt j)) = [] := by
  induction fuel generalizing k with
  | zero =>
    unfold waitForActivePermission
    cases hh : (sortByExpiryDesc
        ((queries k).filter (fun p => isActivePermission p (nowAt k)))).head? with
    | some p =>
      apply iff_of_false
      · simp [hh]
      · intro hall
        exact sorted_head_some_filter_ne hh (hall k (le_refl k) (by omega))
    | none =>
      apply iff_of_true
      · simp [hh]
      · intro j h1 h2
        have hjk : j = k := by omega
        subst hjk
        exact sorted_head_none_filter_nil hh
  | succ f ih =>
    unfold waitForActivePermission
    cases hh : (sortByExpiryDesc
        ((queries k).filter (fun p => isActivePermission p (nowAt k)))).head? with
    | some p =>
      apply iff_of_false
      · simp [hh]
      · intro hall
        exact sorted_head_some_filter_ne hh (hall k (le_refl k) (by omega))
    | none =>
      simp only [hh]
      rw [ih (k + 1)]
      constructor
      · intro h j h1 h2
        by_cases hjk : j = k
        · subst hjk
          exact sorted_head_none_filter_nil hh
        · exact h j (by omega) (by omega)
      · intro h j h1 h2
        exact h j (by omega) (by omega)

theorem waitForActivePermission_query_bound
    (queries : Nat → List PermissionSnapshot) (nowAt : Nat → Int)
    (fuel k : Nat) :
    (waitForActivePermission queries nowAt fuel k).2 ≤ k + fuel + 1 := by
  induction fuel generalizing k with
  | zero =>
    unfold waitForActivePermission
    cases hh : (sortByExpiryDesc
        ((queries k).filter (fun p => isActivePermission p (nowAt k)))).head? with
    | some p => simp [hh]
    | none => simp [hh]
  | succ f ih =>
    unfold waitForActivePermission
    cases hh : (sortByExpiryDesc
        ((queries k).filter (fun p => isActivePermission p (nowAt k)))).head? with
    | some p => simp [hh]
    | none =>
      simp only [hh]
      have hb := ih (k + 1)
      omega

theorem deletePendingPermission_pending (config : AgentWalletConfig) :
    (deletePendingPermission config).porto.bind (fun p => p.pendingPermission) =
      (config.porto.map (fun _ => (none : Option PendingPermissionState))).getD none := by
  obtain ⟨porto⟩ := config
  cases porto <;> simp [deletePendingPermission]

theorem classification_active_match
    (env : ConfigureEnv) (calls : List GrantCallPermission) (st : FlowSt)
    (active : PermissionSnapshot) (k2 : Nat)
    (hw : waitForActivePermission env.queries env.nowAt CONFIGURE_DISCOVERY_POLLS st.queryIdx
      = (some active, k2))
    (hm : permissionMatchesDefaultEnvelope env.sel active.permissions calls = true) :
    (permissionClassificationStep env (some calls) st).1 =
      Except.ok { status := if st.permissionUpdated then .updated else .already_ok
                  details := [("permissionId", active.id), ("state", "active_onchain"),
                              ("expiresAt", env.isoOfEpoch active.expiry)] } ∧
    ((permissionClassificationStep env (some calls) st).2.config.porto.bind
        (fun p => p.pendingPermission)) = none ∧
    (permissionClassificationStep env (some calls) st).2.activationState =
      "active_onchain" := by
  unfold permissionClassificationStep
  rw [hw]
  simp only [hm]
  refine ⟨?_, ?_, ?_⟩
  · simp
  · simp [deletePendingPermission_pending, ensurePermissionIdList]
  · simp

theorem classification_timeout_pending
    (env : ConfigureEnv) (requested : Option (List GrantCallPermission)) (st : FlowSt)
    (k2 : Nat) (p : PendingPermissionState)
    (hw : waitForActivePermission env.queries env.nowAt CONFIGURE_DISCOVERY_POLLS st.queryIdx
      = (none, k2))
    (hp : currentPendingPermission st.config st.chainId = some p)
    (hid : p.id.isEmpty = false) :
    (permissionClassificationStep env requested st).1 =
      Except.ok { status := .updated
                  details := [("permissionId", p.id), ("state", "pending_activation")] } ∧
    (permissionClassificationStep env requested st).2.config = st.config ∧
    (permissionClassificationStep env requested st).2.activationState =
      "pending_activation" := by
  unfold permissionClassificationStep classificationPendingTail
  rw [hw]
  simp [hp, hid]

/-- Claim C5 (amended): the activation poll returns no record exactly
when every discovery query within its fuel window yields no active
record, and terminates within its query budget; when a polled active
record matches the desired policy, classification reports
active_onchain and clears the pending record; when polling times out
with a pending record present, classification reports
pending_activation without error and without deleting the pending
record. The poll stops at the first active record whether or not it
matches the desired policy, so condition (a) of the claim is weaker
than stated — refuted separately by the counterexample. -/
theorem classification_poll_and_timeout_behavior :
    (∀ (queries : Nat → List PermissionSnapshot) (nowAt : Nat → Int) (fuel k : Nat),
      ((waitForActivePermission queries nowAt fuel k).1 = none ↔
        ∀ j, k ≤ j → j ≤ k + fuel →
          (queries j).filter (fun p => isActivePermission p (nowAt j)) = [])) ∧
    (∀ (queries : Nat → List PermissionSnapshot) (nowAt : Nat → Int) (fuel k : Nat),
      (waitForActivePermission queries nowAt fuel k).2 ≤ k + fuel + 1) ∧
    (∀ (env : ConfigureEnv) (calls : List GrantCallPermission) (st : FlowSt)
       (active : PermissionSnapshot) (k2 : Nat),
      waitForActivePermission env.queries env.nowAt CONFIGURE_DISCOVERY_POLLS st.queryIdx
        = (some active, k2) →
      permissionMatchesDefaultEnvelope env.sel active.permissions calls = true →
      (permissionClassificationStep env (some calls) st).1 =
        Except.ok { status := if st.permissionUpdated then .updated else .already_ok
                    details := [("permissionId", active.id), ("state", "active_onchain"),
                                ("expiresAt", env.isoOfEpoch active.expiry)] } ∧
      ((permissionClassificationStep env (some calls) st).2.config.porto.bind
          (fun p => p.pendingPermission)) = none ∧
      (permissionClassificationStep env (some calls) st).2.activationState =
        "active_onchain") ∧
    (∀ (env : ConfigureEnv) (requested : Option (List GrantCallPermission)) (st : FlowSt)
       (k2 : Nat) (p : PendingPermissionState),
      waitForActivePermission env.queries env.nowAt CONFIGURE_DISCOVERY_POLLS st.queryIdx
        = (none, k2) →
      currentPendingPermission st.config st.chainId = some p →
      p.id.isEmpty = false →
      (permissionClassificationStep env requested st).1 =
        Except.ok { status := .updated
                    details := [("permissionId", p.id), ("state", "pending_activation")] } ∧
      (permissionClassificationStep env requested st).2.config = st.config ∧
      (permissionClassificationStep env requested st).2.activationState =
        "pending_activation") :=
  ⟨waitForActivePermission_none_iff, waitForActivePermission_query_bound,
   classification_active_match, classification_timeout_pending⟩

theorem classification_poll_and_timeout_behavior_witness :
    (permissionClassificationStep envOnboard (some desiredA) stPendingA).1 =
      Except.ok { status := .updated
                  details := [("permissionId", pendingA.id), ("state", "pending_activation")] } ∧
    (permissionClassificationStep envOnboard (some desiredA) stPendingA).2.config =
      stPendingA.config ∧
    (permissionClassificationStep envOnboard (some desiredA) stPendingA).2.activationState =
      "pending_activation" :=
  classification_poll_and_timeout_behavior.2.2.2 envOnboard (some desiredA) stPendingA
    13 pendingA (by decide) (by decide) (by decide)

theorem runConfigureFlow_ok
    (env : ConfigureEnv) (options : ConfigureOptions) (config : AgentWalletConfig)
    (r1 r2 r3 r4 r5 r6 : StepResult) (s1 s2 s3 s4 s5 s6 : FlowSt)
    (h1 : agentKeyStep env (flowInit config) = (.ok r1, s1))
    (h2 : accountStep env options s1 = (.ok r2, s2))
    (hg : truthyStr s2.address = true)
    (h3 : permissionStateStep env options.calls s2 = (.ok r3, s3))
    (h4 : permissionPreparationStep env options.calls s3 = (.ok r4, s4))
    (h5 : permissionClassificationStep env options.calls s4 = (.ok r5, s5))
    (h6 : outcomeStep s5 = (.ok r6, s6)) :
    runConfigureFlow env options config =
      { checkpoints :=
          [{ checkpoint := "agent_key", status := r1.status, details := r1.details },
           { checkpoint := "account", status := r2.status, details := r2.details },
           { checkpoint := "permission_state", status := r3.status, details := r3.details },
           { checkpoint := "permission_preparation", status := r4.status, details := r4.details },
           { checkpoint := "permission_classification", status := r5.status, details := r5.details },
           { checkpoint := "outcome", status := r6.status, details := r6.details }]
        error := none
        finalSt := s6 } := by
  unfold runConfigureFlow runFlowStep addressGuard
  dsimp only
  rw [h1]
  simp only [Except.bind]
  rw [h2]
  simp only [Except.bind, hg, Bool.not_true, Bool.false_eq_true, if_neg, ite_false]
  rw [h3]
  simp only [Except.bind]
  rw [h4]
  simp only [Except.bind]
  rw [h5]
  simp only [Except.bind]
  rw [h6]
  simp

theorem agentKeyStep_eq (env : ConfigureEnv) (st : FlowSt) :
    agentKeyStep env st =
      (.ok { status := if env.signerCreated then .created else .already_ok
             details := [("keyId", env.signerKeyId)] }, st) := rfl

theorem accountStep_already_ok (env : ConfigureEnv) (options : ConfigureOptions)
    (st : FlowSt)
    (hca : options.createAccount = false) (ha : truthyStr st.address = true) :
    accountStep env options st = (.ok { status := .already_ok, details := [] }, st) := by
  unfold accountStep
  simp [hca, ha]

theorem prepStep_skip (env : ConfigureEnv) (requested : Option (List GrantCallPermission))
    (st : FlowSt) (h : st.requiresGrant = false) :
    permissionPreparationStep env requested st =
      (.ok { status := .already_ok, details := [("reason", "No new grant needed.")] }, st) := by
  unfold permissionPreparationStep
  simp [h]

theorem outcomeStep_active (st : FlowSt) (h : st.activationState = "active_onchain") :
    outcomeStep st =
      (.ok { status := .already_ok
             details := [("permissionId", st.grantedPermissionId.getD "null"),
                         ("state", st.activationState)] }, st) := by
  unfold outcomeStep
  simp [h]

theorem outcomeStep_pending (st : FlowSt) (h : st.activationState = "pending_activation") :
    outcomeStep st =
      (.ok { status := .updated
             details := [("permissionId", st.grantedPermissionId.getD "null"),
                         ("state", st.activationState),
                         ("nextAction", "Run your first allowlisted sign call to consume the precall and activate onchain.")] },
       st) := by
  unfold outcomeStep
  rw [h]
  rw [if_neg (by decide)]

theorem stateStep_pending_match
    (env : ConfigureEnv) (calls : List GrantCallPermission) (st : FlowSt)
    (a : String) (k2 : Nat) (p : PendingPermissionState)
    (ha : st.address = some a)
    (hsec : allowlistHasBroadSelfCall calls a = false)
    (hw : waitForActivePermission env.queries env.nowAt CONFIGURE_DISCOVERY_POLLS st.queryIdx
      = (none, k2))
    (hp : currentPendingPermission st.config st.chainId = some p)
    (hpsec : allowlistHasBroadSelfCall p.calls a = false)
    (hm : permissionMatchesDefaultEnvelope env.sel
        { calls := p.calls
          spend := [{ limit := DEFAULT_PERMISSION_DAILY_USD * 1000000, period := "day" }] }
        calls = true) :
    permissionStateStep env (some calls) st =
      (.ok { status := .already_ok
             details := [("permissionId", p.id), ("state", "pending_activation")] },
       { st with
         events := st.events ++ [FlowEvent.assertSecurePassed calls]
         activePermission := none
         pendingPermission := some p
         queryIdx := k2
         config := ensurePermissionIdList st.config p.id
         activationState := "pending_activation"
         grantedPermissionId := some p.id }) := by
  unfold permissionStateStep assertSecureAllowlist
  rw [ha]
  simp only [Option.getD_some, hsec, Bool.not_false, if_true, ite_true]
  rw [hw]
  simp [hp, hpsec, hm]

theorem stateStep_active_match
    (env : ConfigureEnv) (calls : List GrantCallPermission) (st : FlowSt)
    (a : String) (k2 : Nat) (active : PermissionSnapshot)
    (ha : st.address = some a)
    (hsec : allowlistHasBroadSelfCall calls a = false)
    (hw : waitForActivePermission env.queries env.nowAt CONFIGURE_DISCOVERY_POLLS st.queryIdx
      = (some active, k2))
    (hasec : allowlistHasBroadSelfCall active.permissions.calls a = false)
    (hpend : ∀ p, currentPendingPermission st.config st.chainId = some p →
      allowlistHasBroadSelfCall p.calls a = false)
    (hm : permissionMatchesDefaultEnvelope env.sel active.permissions calls = true) :
    permissionStateStep env (some calls) st =
      (.ok { status := .already_ok
             details := [("permissionId", active.id), ("state", "active_onchain")] },
       { st with
         events := st.events ++ [FlowEvent.assertSecurePassed calls]
         activePermission := some active
         pendingPermission := currentPendingPermission st.config st.chainId
         queryIdx := k2
         config := deletePendingPermission (ensurePermissionIdList st.config active.id)
         activationState := "active_onchain"
         grantedPermissionId := some active.id }) := by
  unfold permissionStateStep assertSecureAllowlist
  rw [ha]
  simp only [Option.getD_some, hsec, Bool.not_false, if_true, ite_true]
  rw [hw]
  cases hp : currentPendingPermission st.config st.chainId with
  | none => simp [hp, hasec, hm]
  | some p => simp [hp, hpend p hp, hasec, hm]

theorem classification_timeout_pending_eq
    (env : ConfigureEnv) (requested : Option (List GrantCallPermission)) (st : FlowSt)
    (k2 : Nat) (p : PendingPermissionState)
    (hw : waitForActivePermission env.queries env.nowAt CONFIGURE_DISCOVERY_POLLS st.queryIdx
      = (none, k2))
    (hp : currentPendingPermission st.config st.chainId = some p)
    (hid : p.id.isEmpty = false) :
    permissionClassificationStep env requested st =
      (.ok { status := .updated
             details := [("permissionId", p.id), ("state", "pending_activation")] },
       { st with
         activePermission := none
         pendingPermission := some p
         queryIdx := k2
         activationState := "pending_activation"
         grantedPermissionId := some p.id }) := by
  unfold permissionClassificationStep classificationPendingTail
  rw [hw]
  simp [hp, hid]

theorem classification_active_match_eq
    (env : ConfigureEnv) (calls : List GrantCallPermission) (st : FlowSt)
    (k2 : Nat) (active : PermissionSnapshot)
    (hw : waitForActivePermission env.queries env.nowAt CONFIGURE_DISCOVERY_POLLS st.queryIdx
      = (some active, k2))
    (hm : permissionMatchesDefaultEnvelope env.sel active.permissions calls = true) :
    permissionClassificationStep env (some calls) st =
      (.ok { status := if st.permissionUpdated then .updated else .already_ok
             details := [("permissionId", active.id), ("state", "active_onchain"),
                         ("expiresAt", env.isoOfEpoch active.expiry)] },
       { st with
         activePermission := some active
         pendingPermission := currentPendingPermission st.config st.chainId
         queryIdx := k2
         activationState := "active_onchain"
         config := deletePendingPermission (ensurePermissionIdList st.config active.id)
         grantedPermissionId := some active.id }) := by
  unfold permissionClassificationStep
  rw [hw]
  simp [hm]

theorem ensurePermissionIdList_currentPending (config : AgentWalletConfig)
    (id : String) (ch : Option Nat) :
    currentPendingPermission (ensurePermissionIdList config id) ch =
      currentPendingPermission config ch := by
  obtain ⟨porto⟩ := config
  cases porto <;> simp [ensurePermissionIdList, currentPendingPermission]

theorem deletePendingPermission_currentPending (config : AgentWalletConfig)
    (ch : Option Nat) :
    currentPendingPermission (deletePendingPermission config) ch = none := by
  obtain ⟨porto⟩ := config
  cases porto <;> simp [deletePendingPermission, currentPendingPermission]

theorem accountStep_events (env : ConfigureEnv) (options : ConfigureOptions)
    (st : FlowSt) :
    ∃ d, (accountStep env options st).2.events = st.events ++ d ∧
      (∀ cs, FlowEvent.grantCalled cs ∉ d) ∧
      (accountStep env options st).2.requiresGrant = st.requiresGrant ∧
      (accountStep env options st).2.queryIdx = st.queryIdx := by
  by_cases hS : (options.createAccount || !truthyStr st.address) = true
  · cases hG : env.onboardResult.grantedPermission with
    | none =>
      exact ⟨[FlowEvent.onboardCalled options.calls],
        by simp [accountStep, hS, hG], by simp,
        by simp [accountStep, hS, hG], by simp [accountStep, hS, hG]⟩
    | some g =>
      cases hC : options.calls with
      | none =>
        exact ⟨[FlowEvent.onboardCalled options.calls],
          by simp [accountStep, hS, hG, hC], by simp,
          by simp [accountStep, hS, hG, hC], by simp [accountStep, hS, hG, hC]⟩
      | some cs =>
        cases hA : assertSecureAllowlist cs env.onboardResult.address with
        | error e =>
          exact ⟨[FlowEvent.onboardCalled options.calls],
            by simp [accountStep, hS, hG, hC, hA], by simp,
            by simp [accountStep, hS, hG, hC, hA], by simp [accountStep, hS, hG, hC, hA]⟩
        | ok u =>
          exact ⟨[FlowEvent.onboardCalled options.calls, FlowEvent.assertSecurePassed cs],
            by simp [accountStep, hS, hG, hC, hA], by simp,
            by simp [accountStep, hS, hG, hC, hA], by simp [accountStep, hS, hG, hC, hA]⟩
  · exact ⟨[], by simp [accountStep, hS], by simp,
      by simp [accountStep, hS], by simp [accountStep, hS]⟩

theorem stateStep_events (env : ConfigureEnv)
    (requested : Option (List GrantCallPermission)) (st : FlowSt) :
    ((permissionStateStep env requested st).2.events = st.events ∨
      ∃ cs, requested = some cs ∧
        (permissionStateStep env requested st).2.events =
          st.events ++ [FlowEvent.assertSecurePassed cs]) ∧
    ((permissionStateStep env requested st).2.requiresGrant = true →
      st.requiresGrant = true ∨ requested.isSome = true) ∧
    (∀ r, (permissionStateStep env requested st).1 = Except.ok r →
      ∀ cs, requested = some cs →
        (permissionStateStep env requested st).2.events =
          st.events ++ [FlowEvent.assertSecurePassed cs]) := by
  unfold permissionStateStep
  cases requested with
  | none =>
    dsimp only
    rcases hW : waitForActivePermission env.queries env.nowAt CONFIGURE_DISCOVERY_POLLS
      st.queryIdx with ⟨w, k⟩
    dsimp only
    refine ⟨Or.inl ?_, ?_, ?_⟩
    · (repeat' split) <;> simp_all
    · (repeat' split) <;> simp_all
    · intro r hr cs hcs
      simp_all
  | some calls =>
    dsimp only
    cases hA : assertSecureAllowlist calls (st.address.getD "") with
    | error e =>
      dsimp only
      exact ⟨Or.inl rfl, fun hg => Or.inl hg, by simp⟩
    | ok u =>
      dsimp only
      rcases hW : waitForActivePermission env.queries env.nowAt CONFIGURE_DISCOVERY_POLLS
        st.queryIdx with ⟨w, k⟩
      dsimp only
      have hEv : (∀ x : Except AppError StepResult × FlowSt, x.2.events = x.2.events) := fun _ => rfl
      refine ⟨Or.inr ⟨calls, rfl, ?hev⟩, ?_, fun r hr cs hcs => by cases hcs; exact ?hev⟩
      case hev => (repeat' split) <;> simp_all
      case _ => (repeat' split) <;> simp_all

theorem prepStep_events (env : ConfigureEnv)
    (requested : Option (List GrantCallPermission)) (st : FlowSt) :
    ((permissionPreparationStep env requested st).2.events = st.events ∧
      st.requiresGrant = false) ∨
    (∃ cs, requested = some cs ∧ st.requiresGrant = true ∧
      (permissionPreparationStep env requested st).2.events =
        st.events ++ [FlowEvent.grantCalled cs]) ∨
    ((permissionPreparationStep env requested st).2.events = st.events ∧
      requested = none) := by
  unfold permissionPreparationStep
  cases hRG : st.requiresGrant with
  | false => exact Or.inl ⟨by simp, rfl⟩
  | true =>
    cases requested with
    | none => exact Or.inr (Or.inr ⟨by simp, rfl⟩)
    | some cs =>
      refine Or.inr (Or.inl ⟨cs, rfl, rfl, ?_⟩)
      dsimp only
      (repeat' split) <;> simp_all

theorem classificationStep_events (env : ConfigureEnv)
    (requested : Option (List GrantCallPermission)) (st : FlowSt) :
    (permissionClassificationStep env requested st).2.events = st.events := by
  unfold permissionClassificationStep classificationPendingTail
  rcases hW : waitForActivePermission env.queries env.nowAt CONFIGURE_DISCOVERY_POLLS
    st.queryIdx with ⟨w, k⟩
  dsimp only
  (repeat' split) <;> simp_all

theorem outcomeStep_events (st : FlowSt) :
    (outcomeStep st).2.events = st.events := by
  unfold outcomeStep
  split <;> rfl

theorem outcomeStep_eq (st : FlowSt) : ∃ r, outcomeStep st = (Except.ok r, st) := by
  unfold outcomeStep
  split <;> exact ⟨_, rfl⟩

theorem runConfigureFlow_err2
    (env : ConfigureEnv) (options : ConfigureOptions) (config : AgentWalletConfig)
    (e : AppError) (r1 : StepResult) (s1 s2 : FlowSt)
    (h1 : agentKeyStep env (flowInit config) = (.ok r1, s1))
    (h2 : accountStep env options s1 = (.error e, s2)) :
    (runConfigureFlow env options config).finalSt = s2 := by
  unfold runConfigureFlow runFlowStep addressGuard
  dsimp only
  rw [h1]
  simp only [Except.bind]
  rw [h2]

theorem runConfigureFlow_errGuard
    (env : ConfigureEnv) (options : ConfigureOptions) (config : AgentWalletConfig)
    (r1 r2 : StepResult) (s1 s2 : FlowSt)
    (h1 : agentKeyStep env (flowInit config) = (.ok r1, s1))
    (h2 : accountStep env options s1 = (.ok r2, s2))
    (hg : truthyStr s2.address = false) :
    (runConfigureFlow env options config).finalSt = s2 := by
  unfold runConfigureFlow runFlowStep addressGuard
  dsimp only
  rw [h1]
  simp only [Except.bind]
  rw [h2]
  simp only [Except.bind, hg, Bool.not_false, if_true, ite_true]

theorem runConfigureFlow_err3
    (env : ConfigureEnv) (options : ConfigureOptions) (config : AgentWalletConfig)
    (e : AppError) (r1 r2 : StepResult) (s1 s2 s3 : FlowSt)
    (h1 : agentKeyStep env (flowInit config) = (.ok r1, s1))
    (h2 : accountStep env options s1 = (.ok r2, s2))
    (hg : truthyStr s2.address = true)
    (h3 : permissionStateStep env options.calls s2 = (.error e, s3)) :
    (runConfigureFlow env options config).finalSt = s3 := by
  unfold runConfigureFlow runFlowStep addressGuard
  dsimp only
  rw [h1]
  simp only [Except.bind]
  rw [h2]
  simp only [Except.bind, hg, Bool.not_true, Bool.false_eq_true, if_neg, ite_false]
  rw [h3]

theorem runConfigureFlow_err4
    (env : ConfigureEnv) (options : ConfigureOptions) (config : AgentWalletConfig)
    (e : AppError) (r1 r2 r3 : StepResult) (s1 s2 s3 s4 : FlowSt)
    (h1 : agentKeyStep env (flowInit config) = (.ok r1, s1))
    (h2 : accountStep env options s1 = (.ok r2, s2))
    (hg : truthyStr s2.address = true)
    (h3 : permissionStateStep env options.calls s2 = (.ok r3, s3))
    (h4 : permissionPreparationStep env options.calls s3 = (.error e, s4)) :
    (runConfigureFlow env options config).finalSt = s4 := by
  unfold runConfigureFlow runFlowStep addressGuard
  dsimp only
  rw [h1]
  simp only [Except.bind]
  rw [h2]
  simp only [Except.bind, hg, Bool.not_true, Bool.false_eq_true, if_neg, ite_false]
  rw [h3]
  simp only [Except.bind]
  rw [h4]

theorem runConfigureFlow_err5
    (env : ConfigureEnv) (options : ConfigureOptions) (config : AgentWalletConfig)
    (e : AppError) (r1 r2 r3 r4 : StepResult) (s1 s2 s3 s4 s5 : FlowSt)
    (h1 : agentKeyStep env (flowInit config) = (.ok r1, s1))
    (h2 : accountStep env options s1 = (.ok r2, s2))
    (hg : truthyStr s2.address = true)
    (h3 : permissionStateStep env options.calls s2 = (.ok r3, s3))
    (h4 : permissionPreparationStep env options.calls s3 = (.ok r4, s4))
    (h5 : permissionClassificationStep env options.calls s4 = (.error e, s5)) :
    (runConfigureFlow env options config).finalSt = s5 := by
  unfold runConfigureFlow runFlowStep addressGuard
  dsimp only
  rw [h1]
  simp only [Except.bind]
  rw [h2]
  simp only [Except.bind, hg, Bool.not_true, Bool.false_eq_true, if_neg, ite_false]
  rw [h3]
  simp only [Except.bind]
  rw [h4]
  simp only [Except.bind]
  rw [h5]

theorem runConfigureFlow_after_prep
    (env : ConfigureEnv) (options : ConfigureOptions) (config : AgentWalletConfig)
    (r1 r2 r3 : StepResult) (res4 : Except AppError StepResult) (s1 s2 s3 s4 : FlowSt)
    (h1 : agentKeyStep env (flowInit config) = (.ok r1, s1))
    (h2 : accountStep env options s1 = (.ok r2, s2))
    (hg : truthyStr s2.address = true)
    (h3 : permissionStateStep env options.calls s2 = (.ok r3, s3))
    (h4 : permissionPreparationStep env options.calls s3 = (res4, s4)) :
    (runConfigureFlow env options config).finalSt.events = s4.events := by
  cases res4 with
  | error e =>
    rw [runConfigureFlow_err4 env options config e r1 r2 r3 s1 s2 s3 s4 h1 h2 hg h3 h4]
  | ok r4 =>
    rcases hcl : permissionClassificationStep env options.calls s4 with ⟨res5, s5⟩
    have hev5 := classificationStep_events env options.calls s4
    rw [hcl] at hev5
    cases res5 with
    | error e =>
      rw [runConfigureFlow_err5 env options config e r1 r2 r3 r4 s1 s2 s3 s4 s5
        h1 h2 hg h3 h4 hcl]
      exact hev5
    | ok r5 =>
      obtain ⟨r6, h6⟩ := outcomeStep_eq s5
      rw [runConfigureFlow_ok env options config r1 r2 r3 r4 r5 r6 s1 s2 s3 s4 s5 s5
        h1 h2 hg h3 h4 hcl h6]
      exact hev5

/-- Claim C3 (amended): whenever the reconciliation flow's event trace
contains a `porto.grant` request for an allowlist, that allowlist is the
requested one and a successful `assertSecureAllowlist` validation of the
same allowlist strictly precedes the grant in the trace. The claim as
stated also covers the onboarding grant, which the account step issues
before any validation — refuted separately by the counterexample. -/
theorem grant_preceded_by_validation
    (env : ConfigureEnv) (options : ConfigureOptions) (config : AgentWalletConfig)
    (calls : List GrantCallPermission)
    (h : FlowEvent.grantCalled calls ∈ (runConfigureFlow env options config).finalSt.events) :
    options.calls = some calls ∧
    ∃ l1 l2, (runConfigureFlow env options config).finalSt.events =
      l1 ++ FlowEvent.assertSecurePassed calls :: l2 ∧
      FlowEvent.grantCalled calls ∈ l2 := by
  have h1 := agentKeyStep_eq env (flowInit config)
  rcases hacc : accountStep env options (flowInit config) with ⟨res2, s2⟩
  obtain ⟨d, hd, hnog, hrg2, _⟩ := accountStep_events env options (flowInit config)
  rw [hacc] at hd hrg2
  dsimp only at hd hrg2
  have hs0e : (flowInit config).events = [] := rfl
  rw [hs0e] at hd
  simp only [List.nil_append] at hd
  cases res2 with
  | error e =>
    rw [runConfigureFlow_err2 env options config e _ _ s2 h1 hacc, hd] at h
    exact absurd h (hnog calls)
  | ok r2 =>
    cases hg : truthyStr s2.address with
    | false =>
      rw [runConfigureFlow_errGuard env options config _ r2 _ s2 h1 hacc hg, hd] at h
      exact absurd h (hnog calls)
    | true =>
      rcases hss : permissionStateStep env options.calls s2 with ⟨res3, s3⟩
      obtain ⟨hP1, hP2, hP3⟩ := stateStep_events env options.calls s2
      rw [hss] at hP1 hP2 hP3
      dsimp only at hP1 hP2 hP3
      cases res3 with
      | error e =>
        rw [runConfigureFlow_err3 env options config e _ r2 _ s2 s3 h1 hacc hg hss] at h
        rcases hP1 with hE | ⟨cs, hcs, hE⟩
        · rw [hE, hd] at h
          exact absurd h (hnog calls)
        · rw [hE, hd] at h
          rcases List.mem_append.mp h with hmem | hmem
          · exact absurd hmem (hnog calls)
          · simp at hmem
      | ok r3 =>
        rcases hps : permissionPreparationStep env options.calls s3 with ⟨res4, s4⟩
        have hprep := prepStep_events env options.calls s3
        rw [hps] at hprep
        dsimp only at hprep
        have hfin := runConfigureFlow_after_prep env options config _ r2 r3 res4
          _ s2 s3 s4 h1 hacc hg hss hps
        rcases hprep with ⟨hE4, _⟩ | ⟨cs, hcs, hRG3, hE4⟩ | ⟨hE4, hreqnone⟩
        · -- no grant was required: no grant event anywhere
          rw [hfin, hE4] at h
          rcases hP1 with hE | ⟨cs, hcs, hE⟩
          · rw [hE, hd] at h
            exact absurd h (hnog calls)
          · rw [hE, hd] at h
            rcases List.mem_append.mp h with hmem | hmem
            · exact absurd hmem (hnog calls)
            · simp at hmem
        · -- the grant path: requested allowlist validated in the state step
          have hE3 := hP3 r3 rfl cs hcs
          rw [hfin, hE4, hE3, hd] at h
          rcases List.mem_append.mp h with hmem | hmem
          · rcases List.mem_append.mp hmem with hmem2 | hmem2
            · exact absurd hmem2 (hnog calls)
            · simp at hmem2
          · simp at hmem
            subst hmem
            refine ⟨hcs, d, [FlowEvent.grantCalled calls], ?_, by simp⟩
            rw [hfin, hE4, hE3, hd]
            simp
        · -- no allowlist was requested, so the grant branch is unreachable
          rw [hfin, hE4] at h
          rw [hreqnone] at hP1
          rcases hP1 with hE | ⟨cs, hcs, hE⟩
          · rw [hE, hd] at h
            exact absurd h (hnog calls)
          · cases hcs

/-- Counterexample for C6: starting from an empty local config, a first
run onboards and leaves an unsettled pending grant; the second run with
the unchanged desired policy issues no grant request (its only event is
the security validation), but its classification and outcome checkpoints
report `updated`, not `already_ok` as the claim requires of every step. -/
theorem second_run_not_all_already_ok :
    (runConfigureFlow envOnboard optsBenign { porto := none }).error = none ∧
    (runConfigureFlow envOnboard optsBenign { porto := none }).finalSt.config =
      cfgAfterFirstRun ∧
    (runConfigureFlow envSecondRun optsBenign cfgAfterFirstRun).error = none ∧
    (runConfigureFlow envSecondRun optsBenign cfgAfterFirstRun).checkpoints.map
      (fun cp => cp.status) =
      [.already_ok, .already_ok, .already_ok, .already_ok, .updated, .updated] ∧
    (runConfigureFlow envSecondRun optsBenign cfgAfterFirstRun).finalSt.events =
      [FlowEvent.assertSecurePassed [benignEntry]] := by
  have hrun1 := runConfigureFlow_ok envOnboard optsBenign { porto := none }
    _ _ _ _ _ _ _ _ _ _ _ _
    (agentKeyStep_eq envOnboard (flowInit { porto := none }))
    (show accountStep envOnboard optsBenign (flowInit { porto := none }) =
      (.ok { status := .created, details := [("address", "0xacc0")] }, s2Run1) from rfl)
    (by decide)
    (stateStep_pending_match envOnboard [benignEntry] s2Run1 "0xacc0" 13 pendingP1
      rfl (by decide) rfl rfl (by decide) (by decide))
    (prepStep_skip envOnboard (some [benignEntry]) _ rfl)
    (classification_timeout_pending_eq envOnboard (some [benignEntry]) _ 26 pendingP1
      rfl rfl (by decide))
    (outcomeStep_pending _ rfl)
  have hrun2 := runConfigureFlow_ok envSecondRun optsBenign cfgAfterFirstRun
    _ _ _ _ _ _ _ _ _ _ _ _
    (agentKeyStep_eq envSecondRun (flowInit cfgAfterFirstRun))
    (accountStep_already_ok envSecondRun optsBenign (flowInit cfgAfterFirstRun)
      rfl (by decide))
    (by decide)
    (stateStep_pending_match envSecondRun [benignEntry] (flowInit cfgAfterFirstRun)
      "0xacc0" 13 pendingP1 rfl (by decide) rfl rfl (by decide) (by decide))
    (prepStep_skip envSecondRun (some [benignEntry]) _ rfl)
    (classification_timeout_pending_eq envSecondRun (some [benignEntry]) _ 26 pendingP1
      rfl rfl (by decide))
    (outcomeStep_pending _ rfl)
  refine ⟨?_, ?_, ?_, ?_, ?_⟩
  · rw [hrun1]
  · rw [hrun1]
    decide
  · rw [hrun2]
  · rw [hrun2]
    decide
  · rw [hrun2]
    decide

/-- Claim C6 (amended): rerunning the flow with an unchanged desired
policy issues no grant request — the only event is the security
validation — and creates no new pending or active record; every
checkpoint reports already_ok only in the settled case where an active
record matching the policy is observed on both polls, while in the
unsettled case (grant not yet active) the classification and outcome
checkpoints report updated instead, as the counterexample shows. -/
theorem second_run_idempotent
    (env : ConfigureEnv) (calls : List GrantCallPermission)
    (config : AgentWalletConfig) (po : PortoState) (a : String) (c : Nat)
    (hcfg : config.porto = some po)
    (haddr : po.address = some a) (haE : a ≠ "")
    (hchain : po.chainId = some c)
    (hsec : allowlistHasBroadSelfCall calls a = false)
    (hsigner : env.signerCreated = false) :
    ((∀ j, (env.queries j).filter (fun q => isActivePermission q (env.nowAt j)) = []) →
      ∀ p, po.pendingPermission = some p → p.chainId = c → p.id.isEmpty = false →
      allowlistHasBroadSelfCall p.calls a = false →
      permissionMatchesDefaultEnvelope env.sel
        { calls := p.calls
          spend := [{ limit := DEFAULT_PERMISSION_DAILY_USD * 1000000, period := "day" }] }
        calls = true →
      (runConfigureFlow env { calls := some calls } config).error = none ∧
      (runConfigureFlow env { calls := some calls } config).checkpoints.map
        (fun cp => cp.status) =
        [.already_ok, .already_ok, .already_ok, .already_ok, .updated, .updated] ∧
      (runConfigureFlow env { calls := some calls } config).finalSt.events =
        [FlowEvent.assertSecurePassed calls] ∧
      currentPendingPermission
        (runConfigureFlow env { calls := some calls } config).finalSt.config
        (some c) = some p) ∧
    (∀ (active1 active2 : PermissionSnapshot) (k2 k4 : Nat),
      waitForActivePermission env.queries env.nowAt CONFIGURE_DISCOVERY_POLLS 0 =
        (some active1, k2) →
      waitForActivePermission env.queries env.nowAt CONFIGURE_DISCOVERY_POLLS k2 =
        (some active2, k4) →
      allowlistHasBroadSelfCall active1.permissions.calls a = false →
      (∀ p, po.pendingPermission = some p → allowlistHasBroadSelfCall p.calls a = false) →
      permissionMatchesDefaultEnvelope env.sel active1.permissions calls = true →
      permissionMatchesDefaultEnvelope env.sel active2.permissions calls = true →
      (runConfigureFlow env { calls := some calls } config).error = none ∧
      (runConfigureFlow env { calls := some calls } config).checkpoints.map
        (fun cp => cp.status) =
        [.already_ok, .already_ok, .already_ok, .already_ok, .already_ok, .already_ok] ∧
      (runConfigureFlow env { calls := some calls } config).finalSt.events =
        [FlowEvent.assertSecurePassed calls] ∧
      currentPendingPermission
        (runConfigureFlow env { calls := some calls } config).finalSt.config
        (some c) = none) := by
  have hst0a : (flowInit config).address = some a := by
    simp [flowInit, hcfg, haddr]
  have hst0c : (flowInit config).chainId = some c := by
    simp [flowInit, hcfg, hchain]
  have hg0 : truthyStr (flowInit config).address = true := by
    rw [hst0a]
    simp [truthyStr, isEmpty_false_of_ne haE]
  have h1 := agentKeyStep_eq env (flowInit config)
  have h2 := accountStep_already_ok env { calls := some calls } (flowInit config) rfl hg0
  constructor
  · intro hq p hpp hpc hpid hpsec hm
    have hp0 : currentPendingPermission (flowInit config).config (flowInit config).chainId =
        some p := by
      show currentPendingPermission config (flowInit config).chainId = some p
      rw [hst0c]
      simp [currentPendingPermission, hcfg, hpp, hpc]
    rcases hW1 : waitForActivePermission env.queries env.nowAt CONFIGURE_DISCOVERY_POLLS 0
      with ⟨o1, k2⟩
    have ho1 : o1 = none := by
      have hx := (waitForActivePermission_none_iff env.queries env.nowAt
        CONFIGURE_DISCOVERY_POLLS 0).mpr (fun j _ _ => hq j)
      rw [hW1] at hx
      exact hx
    subst ho1
    have h3 := stateStep_pending_match env calls (flowInit config) a k2 p hst0a hsec hW1
      hp0 hpsec hm
    rcases hW2 : waitForActivePermission env.queries env.nowAt CONFIGURE_DISCOVERY_POLLS k2
      with ⟨o2, k4⟩
    have ho2 : o2 = none := by
      have hx := (waitForActivePermission_none_iff env.queries env.nowAt
        CONFIGURE_DISCOVERY_POLLS k2).mpr (fun j _ _ => hq j)
      rw [hW2] at hx
      exact hx
    subst ho2
    have hp3 : currentPendingPermission
        (ensurePermissionIdList (flowInit config).config p.id)
        (flowInit config).chainId = some p := by
      rw [ensurePermissionIdList_currentPending]
      exact hp0
    have hrun := runConfigureFlow_ok env { calls := some calls } config
      _ _ _ _ _ _ _ _ _ _ _ _ h1 h2 hg0 h3
      (prepStep_skip env (some calls) _ rfl)
      (classification_timeout_pending_eq env (some calls) _ k4 p hW2 hp3 hpid)
      (outcomeStep_pending _ rfl)
    rw [hrun]
    refine ⟨rfl, ?_, ?_, ?_⟩
    · simp [hsigner]
    · simp [flowInit]
    · show currentPendingPermission
        (ensurePermissionIdList (flowInit config).config p.id) (some c) = some p
      rw [ensurePermissionIdList_currentPending]
      show currentPendingPermission config (some c) = some p
      simp [currentPendingPermission, hcfg, hpp, hpc]
  · intro active1 active2 k2 k4 hW1 hW2 hasec hpend hm1 hm2
    have h3 := stateStep_active_match env calls (flowInit config) a k2 active1 hst0a hsec
      hW1 hasec
      (fun p hp => hpend p (by
        have hp' : currentPendingPermission config (some c) = some p := by
          have hx := hp
          rw [hst0c] at hx
          exact hx
        unfold currentPendingPermission at hp'
        rw [hcfg] at hp'
        simp only [Option.some_bind] at hp'
        cases hpo : po.pendingPermission with
        | none => rw [hpo] at hp'; simp at hp'
        | some q =>
          rw [hpo] at hp'
          by_cases hqc : q.chainId = c
          · simp [hqc] at hp'
            rw [hp']
          · simp [hqc] at hp'))
      hm1
    have hrun := runConfigureFlow_ok env { calls := some calls } config
      _ _ _ _ _ _ _ _ _ _ _ _ h1 h2 hg0 h3
      (prepStep_skip env (some calls) _ rfl)
      (classification_active_match_eq env calls _ k4 active2 hW2 hm2)
      (outcomeStep_active _ rfl)
    rw [hrun]
    refine ⟨rfl, ?_, ?_, ?_⟩
    · simp [hsigner, flowInit]
    · simp [flowInit]
    · show currentPendingPermission
        (deletePendingPermission (ensurePermissionIdList
          (ensurePermissionIdList (flowInit config).config active1.id) active2.id))
        (some c) = none
      rw [deletePendingPermission_currentPending]

theorem ensurePermissionIdList_pendingBind (c : AgentWalletConfig) (id : String) :
    (ensurePermissionIdList c id).porto.bind (fun q => q.pendingPermission) =
      c.porto.bind (fun q => q.pendingPermission) := by
  obtain ⟨porto⟩ := c
  cases porto <;> simp [ensurePermissionIdList]

theorem deletePendingPermission_pendingBind (c : AgentWalletConfig) :
    (deletePendingPermission c).porto.bind (fun q => q.pendingPermission) = none := by
  obtain ⟨porto⟩ := c
  cases porto <;> simp [deletePendingPermission]

/-- Claim C4 (amended): in the state-discovery step (1) a pending record
failing the self-call security check is deleted from local state on
every path, (2) with a secure requested policy an insecure active record
is discarded from the result while the step still succeeds, and (3) with
no requested policy an insecure active record fails the run with
INSECURE_ACTIVE_PERMISSION. The discard and deletion are silent — no
distinct insecure-state condition is surfaced, as the counterexample
shows — which is the corrected part of the claim. -/
theorem insecure_state_discarded :
    (∀ (env : ConfigureEnv) (requested : Option (List GrantCallPermission)) (st : FlowSt)
       (a : String) (p : PendingPermissionState),
      st.address = some a →
      (requested = none ∨ ∃ cs, requested = some cs ∧ allowlistHasBroadSelfCall cs a = false) →
      currentPendingPermission st.config st.chainId = some p →
      allowlistHasBroadSelfCall p.calls a = true →
      ((permissionStateStep env requested st).2.config.porto.bind
        (fun q => q.pendingPermission)) = none ∧
      (permissionStateStep env requested st).2.pendingPermission = none) ∧
    (∀ (env : ConfigureEnv) (st : FlowSt) (a : String) (cs : List GrantCallPermission)
       (active : PermissionSnapshot) (k2 : Nat),
      st.address = some a →
      allowlistHasBroadSelfCall cs a = false →
      waitForActivePermission env.queries env.nowAt CONFIGURE_DISCOVERY_POLLS st.queryIdx =
        (some active, k2) →
      allowlistHasBroadSelfCall active.permissions.calls a = true →
      (permissionStateStep env (some cs) st).2.activePermission = none ∧
      ∃ r, (permissionStateStep env (some cs) st).1 = Except.ok r) ∧
    (∀ (env : ConfigureEnv) (st : FlowSt) (a : String)
       (active : PermissionSnapshot) (k2 : Nat),
      st.address = some a →
      waitForActivePermission env.queries env.nowAt CONFIGURE_DISCOVERY_POLLS st.queryIdx =
        (some active, k2) →
      allowlistHasBroadSelfCall active.permissions.calls a = true →
      ∃ e, (permissionStateStep env none st).1 = Except.error e ∧
        e.code = "INSECURE_ACTIVE_PERMISSION") := by
  refine ⟨?_, ?_, ?_⟩
  · intro env requested st a p ha hreq hp hbad
    unfold permissionStateStep
    rw [ha]
    rcases hreq with hreq | ⟨cs, hreq, hsec⟩ <;> subst hreq
    · dsimp only
      rcases hW : waitForActivePermission env.queries env.nowAt CONFIGURE_DISCOVERY_POLLS
        st.queryIdx with ⟨w, k⟩
      (try dsimp only)
      rw [hp]
      simp only [hbad, Option.getD_some, if_true, ite_true]
      constructor
      · (repeat' split) <;>
          simp_all [ensurePermissionIdList_pendingBind, deletePendingPermission_pendingBind]
      · (repeat' split) <;> (try subst_vars) <;> simp_all
    · unfold assertSecureAllowlist
      simp only [Option.getD_some, hsec, Bool.not_false, if_true, ite_true]
      (try dsimp only)
      rcases hW : waitForActivePermission env.queries env.nowAt CONFIGURE_DISCOVERY_POLLS
        st.queryIdx with ⟨w, k⟩
      (try dsimp only)
      rw [hp]
      simp only [hbad, Option.getD_some, if_true, ite_true]
      constructor
      · (repeat' split) <;>
          simp_all [ensurePermissionIdList_pendingBind, deletePendingPermission_pendingBind]
      · (repeat' split) <;> (try subst_vars) <;> simp_all
  · intro env st a cs active k2 ha hsec hW hbad
    unfold permissionStateStep assertSecureAllowlist
    rw [ha]
    simp only [Option.getD_some, hsec, Bool.not_false, if_true, ite_true]
    (try dsimp only)
    rw [hW]
    (try dsimp only)
    constructor
    · (repeat' split) <;> (try subst_vars) <;> simp_all
    · (repeat' split) <;> (try subst_vars) <;> simp_all
  · intro env st a active k2 ha hW hbad
    unfold permissionStateStep
    rw [ha]
    (try dsimp only)
    rw [hW]
    (try dsimp only)
    (repeat' split) <;> (try subst_vars) <;> simp_all
    all_goals
      first
        | rfl
        | (rename_i heq h1 h2; exact heq ▸ rfl)
        | (rename_i heq h1; exact heq ▸ rfl)
        | (rename_i heq; exact heq ▸ rfl)

/-- Local config with an onboarded account on chain 8453 and no pending
permission record. -/
def cfgAddrNoPending : AgentWalletConfig :=
  { porto := some { address := some "0xacc0", chainId := some 8453
                    permissionIds := [], pendingPermission := none } }

theorem grantRunEvents :
    (runConfigureFlow envOnboard optsBenign cfgAddrNoPending).finalSt.events =
      [FlowEvent.assertSecurePassed [benignEntry],
       FlowEvent.grantCalled [benignEntry]] := by
  rw [runConfigureFlow_after_prep envOnboard optsBenign cfgAddrNoPending
    _ _ _ _ _ _ _ _ rfl rfl rfl rfl rfl]
  rfl

theorem grant_preceded_by_validation_witness :
    optsBenign.calls = some [benignEntry] ∧
    ∃ l1 l2, (runConfigureFlow envOnboard optsBenign cfgAddrNoPending).finalSt.events =
      l1 ++ FlowEvent.assertSecurePassed [benignEntry] :: l2 ∧
      FlowEvent.grantCalled [benignEntry] ∈ l2 :=
  grant_preceded_by_validation envOnboard optsBenign cfgAddrNoPending [benignEntry]
    (by rw [grantRunEvents]; simp)

theorem insecure_state_discarded_witness :
    ((permissionStateStep envOnboard (some [benignEntry])
        stWithInsecurePending).2.config.porto.bind
      (fun q => q.pendingPermission)) = none ∧
    (permissionStateStep envOnboard (some [benignEntry])
        stWithInsecurePending).2.pendingPermission = none :=
  insecure_state_discarded.1 envOnboard (some [benignEntry]) stWithInsecurePending
    "0xacc0" insecurePending rfl (Or.inr ⟨[benignEntry], rfl, by decide⟩)
    (by decide) (by decide)

theorem second_run_idempotent_witness :
    (runConfigureFlow envSecondRun { calls := some [benignEntry] }
      cfgAfterFirstRun).error = none ∧
    (runConfigureFlow envSecondRun { calls := some [benignEntry] }
      cfgAfterFirstRun).checkpoints.map (fun cp => cp.status) =
      [.already_ok, .already_ok, .already_ok, .already_ok, .updated, .updated] ∧
    (runConfigureFlow envSecondRun { calls := some [benignEntry] }
      cfgAfterFirstRun).finalSt.events =
      [FlowEvent.assertSecurePassed [benignEntry]] ∧
    currentPendingPermission
      (runConfigureFlow envSecondRun { calls := some [benignEntry] }
        cfgAfterFirstRun).finalSt.config (some 8453) = some pendingP1 :=
  (second_run_idempotent envSecondRun [benignEntry] cfgAfterFirstRun portoP1
      "0xacc0" 8453 rfl rfl (by decide) rfl (by decide) rfl).1
    (fun j => rfl) pendingP1 rfl rfl (by decide) (by decide) (by decide)

end AgentWallet
